import Mathlib

/-!
Shallow embedding of the rustfmt typed configuration registry
(`src/config/config_type.rs`): the `ConfigOption` slot, the `Config`
registry generated by the `create_config!` macro, the stability oracle
`is_stable_option_and_value`, the merge / setter / override mutation paths,
the width-heuristics derivation and the deprecated-alias reconciliation.

Machine integers (`usize`) are modelled as `Nat` bounded by `USIZE_MAX`
where the parsing in the source can fail on overflow; comparisons in the source
never overflow.  Warnings printed with `eprintln!` are modelled as a
returned `List String` of messages; the ambient `is_nightly_channel!()`
macro (not part of the source of this file) is an explicit `Bool` parameter.
The option catalog itself (the long `create_config!` argument list) is out
of scope of the source file; a representative subset of options — exactly
the ones the protocol logic names — is used, with catalog data (defaults,
stability tiers) modelled from the spec.
-/

namespace RustfmtConfig

/-- `usize::MAX` on a 64-bit target. -/
def USIZE_MAX : Nat := 2 ^ 64 - 1

/-- Style editions ("2015" … "2024"): the ordered generation enum that
selects per-option defaults. -/
inductive StyleEdition where
  | Edition2015
  | Edition2018
  | Edition2021
  | Edition2024
  deriving DecidableEq, Repr

/-- The three-way `use_small_heuristics` mode. -/
inductive Heuristics where
  | Default
  | Max
  | Off
  deriving DecidableEq, Repr

/-- Semantic type of `imports_granularity` (canonical replacement of the
legacy `merge_imports`). -/
inductive ImportGranularity where
  | Preserve
  | Crate
  | Module
  | Item
  | One
  deriving DecidableEq, Repr

/-- Semantic type of `fn_args_layout` / `fn_params_layout`. -/
inductive Density where
  | Compressed
  | Tall
  | Vertical
  deriving DecidableEq, Repr

/-- Semantic type of the legacy `version` option. -/
inductive Version where
  | One
  | Two
  deriving DecidableEq, Repr

/-- Modelled from the spec: a path-pattern ignore list (the `IgnoreList`
type lives outside the source file); a plain list of patterns. -/
abbrev IgnoreList : Type := List String

/-- Trait for types usable in `Config`: a doc hint, a `Debug`-style
rendering, and per-value (variant) stability.  As in the source, variant
stability defaults to `true` for every value. -/
class ConfigType (T : Type) where
  doc_hint : String
  debug_repr : T → String
  stable_variant : T → Bool := fun _ => true

instance : ConfigType Bool where
  doc_hint := "<boolean>"
  debug_repr := fun b => if b then "true" else "false"

instance : ConfigType Nat where
  doc_hint := "<unsigned integer>"
  debug_repr := Nat.repr

instance : ConfigType Heuristics where
  doc_hint := "Default|Max|Off"
  debug_repr := fun v =>
    match v with
    | .Default => "Default"
    | .Max => "Max"
    | .Off => "Off"

instance : ConfigType ImportGranularity where
  doc_hint := "Preserve|Crate|Module|Item|One"
  debug_repr := fun v =>
    match v with
    | .Preserve => "Preserve"
    | .Crate => "Crate"
    | .Module => "Module"
    | .Item => "Item"
    | .One => "One"

instance : ConfigType Density where
  doc_hint := "Compressed|Tall|Vertical"
  debug_repr := fun v =>
    match v with
    | .Compressed => "Compressed"
    | .Tall => "Tall"
    | .Vertical => "Vertical"

instance : ConfigType Version where
  doc_hint := "One|Two"
  debug_repr := fun v =>
    match v with
    | .One => "One"
    | .Two => "Two"

instance : ConfigType StyleEdition where
  doc_hint := "2015|2018|2021|2024"
  debug_repr := fun v =>
    match v with
    | .Edition2015 => "Edition2015"
    | .Edition2018 => "Edition2018"
    | .Edition2021 => "Edition2021"
    | .Edition2024 => "Edition2024"

instance : ConfigType IgnoreList where
  doc_hint := "[<string>, ...]"
  debug_repr := fun _ => "IgnoreList"

/-- Warning emitted when a whole option is rejected as unstable on a
non-nightly channel (text of the `eprintln!` in the source). -/
def option_unstable_warning {T : Type} [ConfigType T] (option_name : String)
    (option_value : T) : String :=
  "Warning: can\x27t set `" ++ option_name ++ " = " ++ ConfigType.debug_repr option_value ++
    "`, unstable features are only available in nightly channel."

/-- Warning emitted when a stable option is given an unstable variant on a
non-nightly channel. -/
def variant_unstable_warning {T : Type} [ConfigType T] (option_name : String)
    (option_value : T) : String :=
  "Warning: can\x27t set `" ++ option_name ++ " = " ++ ConfigType.debug_repr option_value ++
    "`, unstable variants are only available in nightly channel."

/-- The Stability Oracle (`is_stable_option_and_value` in the source):
given the ambient nightly flag, the declared stability of the option and the
candidate value (whose own variant stability comes from `ConfigType`),
returns whether the assignment is permitted together with the warnings
emitted on rejection. -/
def is_stable_option_and_value {T : Type} [ConfigType T] (nightly : Bool)
    (option_name : String) (option_stable : Bool) (option_value : T) :
    Bool × List String :=
  let variant_stable := ConfigType.stable_variant option_value
  match nightly, option_stable, variant_stable with
  | false, false, _ => (false, [option_unstable_warning option_name option_value])
  | false, true, false => (false, [variant_unstable_warning option_name option_value])
  | true, _, _ => (true, [])
  | false, true, true => (true, [])

/-- Modelled from the spec: a representative enum-like value type one of
whose variants is itself unstable ("a value/variant may itself be unstable
even if the option is generally stable — e.g. one enum case is
experimental"); used to exercise the variant-stability row of the
oracle decision table. -/
inductive ExperimentalChoice where
  | Plain
  | Experimental
  deriving DecidableEq, Repr

instance : ConfigType ExperimentalChoice where
  doc_hint := "Plain|Experimental"
  debug_repr := fun v =>
    match v with
    | .Plain => "Plain"
    | .Experimental => "Experimental"
  stable_variant := fun v =>
    match v with
    | .Plain => true
    | .Experimental => false

/-! ### Option catalog

Modelled from the spec: the option catalog (the `create_config!` argument
list of names, semantic types, per-edition defaults and stability tiers)
is outside the source file.  The subset below contains every option the
protocol logic of the source names, with representative catalog data. -/

/-- Modelled from the spec: per-edition compiled default of `max_width`. -/
def default_max_width (_ : StyleEdition) : Nat := 100

/-- Modelled from the spec: per-edition default of `use_small_heuristics`. -/
def default_use_small_heuristics (_ : StyleEdition) : Heuristics := .Default

/-- Modelled from the spec: per-edition default of `fn_call_width`. -/
def default_fn_call_width (_ : StyleEdition) : Nat := 60

/-- Modelled from the spec: per-edition default of `attr_fn_like_width`. -/
def default_attr_fn_like_width (_ : StyleEdition) : Nat := 70

/-- Modelled from the spec: per-edition default of `struct_lit_width`. -/
def default_struct_lit_width (_ : StyleEdition) : Nat := 18

/-- Modelled from the spec: per-edition default of `struct_variant_width`. -/
def default_struct_variant_width (_ : StyleEdition) : Nat := 35

/-- Modelled from the spec: per-edition default of `array_width`. -/
def default_array_width (_ : StyleEdition) : Nat := 60

/-- Modelled from the spec: per-edition default of `chain_width`. -/
def default_chain_width (_ : StyleEdition) : Nat := 60

/-- Modelled from the spec: per-edition default of `single_line_if_else_max_width`. -/
def default_single_line_if_else_max_width (_ : StyleEdition) : Nat := 50

/-- Modelled from the spec: per-edition default of `single_line_let_else_max_width`. -/
def default_single_line_let_else_max_width (_ : StyleEdition) : Nat := 50

/-- Modelled from the spec: per-edition default of the legacy `merge_imports`. -/
def default_merge_imports (_ : StyleEdition) : Bool := false

/-- Modelled from the spec: per-edition default of `imports_granularity`. -/
def default_imports_granularity (_ : StyleEdition) : ImportGranularity := .Preserve

/-- Modelled from the spec: per-edition default of the legacy `fn_args_layout`. -/
def default_fn_args_layout (_ : StyleEdition) : Density := .Tall

/-- Modelled from the spec: per-edition default of `fn_params_layout`. -/
def default_fn_params_layout (_ : StyleEdition) : Density := .Tall

/-- Modelled from the spec: per-edition default of the legacy `hide_parse_errors`. -/
def default_hide_parse_errors (_ : StyleEdition) : Bool := false

/-- Modelled from the spec: per-edition default of `show_parse_errors`. -/
def default_show_parse_errors (_ : StyleEdition) : Bool := true

/-- Modelled from the spec: per-edition default of the legacy `version`
(editions from 2024 on default to the second formatting version). -/
def default_version (se : StyleEdition) : Version :=
  match se with
  | .Edition2024 => .Two
  | _ => .One

/-- Modelled from the spec: the `style_edition` option defaults to the
edition the Registry is constructed with. -/
def default_style_edition (se : StyleEdition) : StyleEdition := se

/-- Modelled from the spec: per-edition default of `ignore` (empty list). -/
def default_ignore (_ : StyleEdition) : IgnoreList := []

/-! ### `FromStr` parsing (the `val.parse::<T>()` calls of `override_value`
and `is_valid_key_val`) -/

/-- The `FromStr` behaviour of `usize`: an optional leading `+`, then one or more ASCII
digits, rejecting values above `usize::MAX`. -/
def usize_from_str (s : String) : Option Nat :=
  let cs :=
    match s.toList with
    | '+' :: rest => rest
    | cs => cs
  if cs.isEmpty then none
  else if cs.all (fun c => c.isDigit) then
    let n := cs.foldl (fun acc c => acc * 10 + (c.toNat - 48)) 0
    if n ≤ USIZE_MAX then some n else none
  else none

/-- The `FromStr` behaviour of `bool`: exactly the strings `true` and `false`. -/
def bool_from_str (s : String) : Option Bool :=
  if s = "true" then some true
  else if s = "false" then some false
  else none

/-- Modelled from the spec: enum options parse from their exact textual
variant names (the doc-hint list). -/
def heuristics_from_str (s : String) : Option Heuristics :=
  if s = "Default" then some .Default
  else if s = "Max" then some .Max
  else if s = "Off" then some .Off
  else none

/-- Modelled from the spec: textual variant names of `imports_granularity`. -/
def import_granularity_from_str (s : String) : Option ImportGranularity :=
  if s = "Preserve" then some .Preserve
  else if s = "Crate" then some .Crate
  else if s = "Module" then some .Module
  else if s = "Item" then some .Item
  else if s = "One" then some .One
  else none

/-- Modelled from the spec: textual variant names of `Density`. -/
def density_from_str (s : String) : Option Density :=
  if s = "Compressed" then some .Compressed
  else if s = "Tall" then some .Tall
  else if s = "Vertical" then some .Vertical
  else none

/-- Modelled from the spec: textual variant names of `version`. -/
def version_from_str (s : String) : Option Version :=
  if s = "One" then some .One
  else if s = "Two" then some .Two
  else none

/-- Modelled from the spec: style editions parse from their year names. -/
def style_edition_from_str (s : String) : Option StyleEdition :=
  if s = "2015" then some .Edition2015
  else if s = "2018" then some .Edition2018
  else if s = "2021" then some .Edition2021
  else if s = "2024" then some .Edition2024
  else none

/-- Modelled from the spec: the file-format parsing of path-pattern lists
is out of scope; a minimal parser accepting the empty list. -/
def ignore_list_from_str (s : String) : Option IgnoreList :=
  if s = "[]" then some ([] : List String) else none

/-! ### Option Slot and Registry -/

/-- The slot of one option: resolved value plus bookkeeping flags
(`ConfigOption<T>` in the source; the `Cell<bool>` for `is_used` becomes a
plain `Bool` under explicit state passing). -/
structure ConfigOption (T : Type) where
  value : T
  /-- `true` if the value has been accessed -/
  is_used : Bool
  /-- `true` if the option is stable -/
  is_stable : Bool
  /-- `true` if the option was manually initialized -/
  was_set : Bool
  /-- `true` if the option was set manually from a CLI flag -/
  was_set_cli : Bool
  deriving DecidableEq, Repr

/-- The Configuration Registry (`Config` in the source): one slot per
option of the catalog subset, in catalog order. -/
structure Config where
  max_width : ConfigOption Nat
  use_small_heuristics : ConfigOption Heuristics
  fn_call_width : ConfigOption Nat
  attr_fn_like_width : ConfigOption Nat
  struct_lit_width : ConfigOption Nat
  struct_variant_width : ConfigOption Nat
  array_width : ConfigOption Nat
  chain_width : ConfigOption Nat
  single_line_if_else_max_width : ConfigOption Nat
  single_line_let_else_max_width : ConfigOption Nat
  merge_imports : ConfigOption Bool
  imports_granularity : ConfigOption ImportGranularity
  fn_args_layout : ConfigOption Density
  fn_params_layout : ConfigOption Density
  hide_parse_errors : ConfigOption Bool
  show_parse_errors : ConfigOption Bool
  version : ConfigOption Version
  style_edition : ConfigOption StyleEdition
  ignore : ConfigOption IgnoreList
  deriving DecidableEq, Repr

/-- The Partial Overlay (`PartialConfig` in the source): every option
wrapped in `Option`, absent fields meaning "use the compiled default". -/
structure PartialConfig where
  max_width : Option Nat := none
  use_small_heuristics : Option Heuristics := none
  fn_call_width : Option Nat := none
  attr_fn_like_width : Option Nat := none
  struct_lit_width : Option Nat := none
  struct_variant_width : Option Nat := none
  array_width : Option Nat := none
  chain_width : Option Nat := none
  single_line_if_else_max_width : Option Nat := none
  single_line_let_else_max_width : Option Nat := none
  merge_imports : Option Bool := none
  imports_granularity : Option ImportGranularity := none
  fn_args_layout : Option Density := none
  fn_params_layout : Option Density := none
  hide_parse_errors : Option Bool := none
  show_parse_errors : Option Bool := none
  version : Option Version := none
  style_edition : Option StyleEdition := none
  ignore : Option IgnoreList := none
  deriving DecidableEq, Repr

/-- Modelled from the spec: stability tier of each catalog entry (the
`$stb` macro argument).  The primary width and mode, the layout options
and `style_edition` are stable; the granular width options, the legacy
aliases and the parse-error toggles are nightly-only. -/
def catalog_is_stable_max_width : Bool := true

/-- Modelled from the spec: stability of `use_small_heuristics`. -/
def catalog_is_stable_use_small_heuristics : Bool := true

/-- Modelled from the spec: stability of the granular width options. -/
def catalog_is_stable_width_options : Bool := false

/-- Modelled from the spec: stability of `merge_imports`. -/
def catalog_is_stable_merge_imports : Bool := false

/-- Modelled from the spec: stability of `imports_granularity`. -/
def catalog_is_stable_imports_granularity : Bool := false

/-- Modelled from the spec: stability of `fn_args_layout`. -/
def catalog_is_stable_fn_args_layout : Bool := true

/-- Modelled from the spec: stability of `fn_params_layout`. -/
def catalog_is_stable_fn_params_layout : Bool := true

/-- Modelled from the spec: stability of `hide_parse_errors`. -/
def catalog_is_stable_hide_parse_errors : Bool := false

/-- Modelled from the spec: stability of `show_parse_errors`. -/
def catalog_is_stable_show_parse_errors : Bool := false

/-- Modelled from the spec: stability of `version`. -/
def catalog_is_stable_version : Bool := false

/-- Modelled from the spec: stability of `style_edition`. -/
def catalog_is_stable_style_edition : Bool := true

/-- Modelled from the spec: stability of `ignore`. -/
def catalog_is_stable_ignore : Bool := true

/-- `Config::default_with_style_edition`: seeds the `value` of every slot from
the per-edition catalog default, `is_stable` from the catalog tier, and
all bookkeeping flags to `false`. -/
def Config.default_with_style_edition (se : StyleEdition) : Config where
  max_width :=
    { value := default_max_width se, is_used := false,
      is_stable := catalog_is_stable_max_width, was_set := false, was_set_cli := false }
  use_small_heuristics :=
    { value := default_use_small_heuristics se, is_used := false,
      is_stable := catalog_is_stable_use_small_heuristics, was_set := false, was_set_cli := false }
  fn_call_width :=
    { value := default_fn_call_width se, is_used := false,
      is_stable := catalog_is_stable_width_options, was_set := false, was_set_cli := false }
  attr_fn_like_width :=
    { value := default_attr_fn_like_width se, is_used := false,
      is_stable := catalog_is_stable_width_options, was_set := false, was_set_cli := false }
  struct_lit_width :=
    { value := default_struct_lit_width se, is_used := false,
      is_stable := catalog_is_stable_width_options, was_set := false, was_set_cli := false }
  struct_variant_width :=
    { value := default_struct_variant_width se, is_used := false,
      is_stable := catalog_is_stable_width_options, was_set := false, was_set_cli := false }
  array_width :=
    { value := default_array_width se, is_used := false,
      is_stable := catalog_is_stable_width_options, was_set := false, was_set_cli := false }
  chain_width :=
    { value := default_chain_width se, is_used := false,
      is_stable := catalog_is_stable_width_options, was_set := false, was_set_cli := false }
  single_line_if_else_max_width :=
    { value := default_single_line_if_else_max_width se, is_used := false,
      is_stable := catalog_is_stable_width_options, was_set := false, was_set_cli := false }
  single_line_let_else_max_width :=
    { value := default_single_line_let_else_max_width se, is_used := false,
      is_stable := catalog_is_stable_width_options, was_set := false, was_set_cli := false }
  merge_imports :=
    { value := default_merge_imports se, is_used := false,
      is_stable := catalog_is_stable_merge_imports, was_set := false, was_set_cli := false }
  imports_granularity :=
    { value := default_imports_granularity se, is_used := false,
      is_stable := catalog_is_stable_imports_granularity, was_set := false, was_set_cli := false }
  fn_args_layout :=
    { value := default_fn_args_layout se, is_used := false,
      is_stable := catalog_is_stable_fn_args_layout, was_set := false, was_set_cli := false }
  fn_params_layout :=
    { value := default_fn_params_layout se, is_used := false,
      is_stable := catalog_is_stable_fn_params_layout, was_set := false, was_set_cli := false }
  hide_parse_errors :=
    { value := default_hide_parse_errors se, is_used := false,
      is_stable := catalog_is_stable_hide_parse_errors, was_set := false, was_set_cli := false }
  show_parse_errors :=
    { value := default_show_parse_errors se, is_used := false,
      is_stable := catalog_is_stable_show_parse_errors, was_set := false, was_set_cli := false }
  version :=
    { value := default_version se, is_used := false,
      is_stable := catalog_is_stable_version, was_set := false, was_set_cli := false }
  style_edition :=
    { value := default_style_edition se, is_used := false,
      is_stable := catalog_is_stable_style_edition, was_set := false, was_set_cli := false }
  ignore :=
    { value := default_ignore se, is_used := false,
      is_stable := catalog_is_stable_ignore, was_set := false, was_set_cli := false }

/-! ### Width heuristics -/

/-- The raw heuristics bundle: one candidate value per dependent width
option (`WidthHeuristics` in the `options` module of the source). -/
structure WidthHeuristics where
  fn_call_width : Nat
  attr_fn_like_width : Nat
  struct_lit_width : Nat
  struct_variant_width : Nat
  array_width : Nat
  chain_width : Nat
  single_line_if_else_max_width : Nat
  single_line_let_else_max_width : Nat
  deriving DecidableEq, Repr

/-- Modelled from the spec: `WidthHeuristics::null()` — every dependent
width disabled, i.e. set to the "no limit" sentinel (`usize::MAX`). -/
def WidthHeuristics.null : WidthHeuristics where
  fn_call_width := USIZE_MAX
  attr_fn_like_width := USIZE_MAX
  struct_lit_width := USIZE_MAX
  struct_variant_width := USIZE_MAX
  array_width := USIZE_MAX
  chain_width := USIZE_MAX
  single_line_if_else_max_width := USIZE_MAX
  single_line_let_else_max_width := USIZE_MAX

/-- Modelled from the spec: `WidthHeuristics::set(max_width)` — every
dependent width set to `max_width` itself. -/
def WidthHeuristics.set (max_width : Nat) : WidthHeuristics where
  fn_call_width := max_width
  attr_fn_like_width := max_width
  struct_lit_width := max_width
  struct_variant_width := max_width
  array_width := max_width
  chain_width := max_width
  single_line_if_else_max_width := max_width
  single_line_let_else_max_width := max_width

/-- Modelled from the spec: `WidthHeuristics::scaled(max_width)` — every
dependent width a fixed proportional fraction of `max_width` (one constant
per dependent option). -/
def WidthHeuristics.scaled (max_width : Nat) : WidthHeuristics where
  fn_call_width := max_width * 60 / 100
  attr_fn_like_width := max_width * 70 / 100
  struct_lit_width := max_width * 18 / 100
  struct_variant_width := max_width * 35 / 100
  array_width := max_width * 60 / 100
  chain_width := max_width * 60 / 100
  single_line_if_else_max_width := max_width * 50 / 100
  single_line_let_else_max_width := max_width * 50 / 100

/-- Warning printed when an explicitly set dependent width exceeds
`max_width` (text of the clamping `eprintln!`). -/
def width_clamp_warning (config_key : String) : String :=
  "`" ++ config_key ++ "` cannot have a value that exceeds `max_width`. `" ++
    config_key ++ "` will be set to the same value as `max_width`"

/-- The `get_width_value` closure of `Config::set_width_heuristics`:
resolves one dependent width from its `was_set` flag, its explicitly set
value, the heuristics candidate and the ambient `max_width`, emitting the
clamp warning when the explicit value exceeds `max_width`. -/
def get_width_value (max_width : Nat) (was_set : Bool) (override_value heuristic_value : Nat)
    (config_key : String) : Nat × List String :=
  if was_set = false then (heuristic_value, [])
  else if max_width < override_value then (max_width, [width_clamp_warning config_key])
  else (override_value, [])

/-- `Config::set_width_heuristics`: resolve each of the eight dependent
width slots, in source order, against the supplied heuristics bundle. -/
def Config.set_width_heuristics (c : Config) (heuristics : WidthHeuristics) :
    Config × List String :=
  let max_width := c.max_width.value
  let r1 := get_width_value max_width c.fn_call_width.was_set c.fn_call_width.value
    heuristics.fn_call_width "fn_call_width"
  let r2 := get_width_value max_width c.attr_fn_like_width.was_set c.attr_fn_like_width.value
    heuristics.attr_fn_like_width "attr_fn_like_width"
  let r3 := get_width_value max_width c.struct_lit_width.was_set c.struct_lit_width.value
    heuristics.struct_lit_width "struct_lit_width"
  let r4 := get_width_value max_width c.struct_variant_width.was_set c.struct_variant_width.value
    heuristics.struct_variant_width "struct_variant_width"
  let r5 := get_width_value max_width c.array_width.was_set c.array_width.value
    heuristics.array_width "array_width"
  let r6 := get_width_value max_width c.chain_width.was_set c.chain_width.value
    heuristics.chain_width "chain_width"
  let r7 := get_width_value max_width c.single_line_if_else_max_width.was_set
    c.single_line_if_else_max_width.value
    heuristics.single_line_if_else_max_width "single_line_if_else_max_width"
  let r8 := get_width_value max_width c.single_line_let_else_max_width.was_set
    c.single_line_let_else_max_width.value
    heuristics.single_line_let_else_max_width "single_line_let_else_max_width"
  ({ c with
      fn_call_width := { c.fn_call_width with value := r1.1 }
      attr_fn_like_width := { c.attr_fn_like_width with value := r2.1 }
      struct_lit_width := { c.struct_lit_width with value := r3.1 }
      struct_variant_width := { c.struct_variant_width with value := r4.1 }
      array_width := { c.array_width with value := r5.1 }
      chain_width := { c.chain_width with value := r6.1 }
      single_line_if_else_max_width :=
        { c.single_line_if_else_max_width with value := r7.1 }
      single_line_let_else_max_width :=
        { c.single_line_let_else_max_width with value := r8.1 } },
    r1.2 ++ r2.2 ++ r3.2 ++ r4.2 ++ r5.2 ++ r6.2 ++ r7.2 ++ r8.2)

/-- `Config::set_heuristics`: choose the derivation strategy from the
`use_small_heuristics` mode, then distribute via `set_width_heuristics`. -/
def Config.set_heuristics (c : Config) : Config × List String :=
  let max_width := c.max_width.value
  match c.use_small_heuristics.value with
  | Heuristics.Default => c.set_width_heuristics (WidthHeuristics.scaled max_width)
  | Heuristics.Max => c.set_width_heuristics (WidthHeuristics.set max_width)
  | Heuristics.Off => c.set_width_heuristics WidthHeuristics.null

/-- `Config::set_ignore`: apply the base directory prefix to the ignore
list (`IgnoreList::add_prefix` modelled from the spec as prefixing every
pattern). -/
def Config.set_ignore (c : Config) (dir : String) : Config :=
  { c with ignore := { c.ignore with value := c.ignore.value.map (fun p => dir ++ "/" ++ p) } }

/-! ### Deprecated-alias reconciliation -/

/-- Deprecation warning for `merge_imports`. -/
def merge_imports_deprecation_warning : String :=
  "Warning: the `merge_imports` option is deprecated. Use `imports_granularity=\"Crate\"` instead"

/-- Deprecation warning for `fn_args_layout` (the stray period before
`instead` is the own text of the source). -/
def fn_args_layout_deprecation_warning : String :=
  "Warning: the `fn_args_layout` option is deprecated. Use `fn_params_layout`. instead"

/-- Deprecation warning for `hide_parse_errors`. -/
def hide_parse_errors_deprecation_warning : String :=
  "Warning: the `hide_parse_errors` option is deprecated. Use `show_parse_errors` instead"

/-- Deprecation warning for `version`. -/
def version_deprecation_warning : String :=
  "Warning: the `version` option is deprecated. Use `style_edition` instead."

/-- Precedence warning when `version` is used together with `style_edition`. -/
def version_precedence_warning : String :=
  "Warning: the deprecated `version` option was used in conjunction with the " ++
    "`style_edition` option which takes precedence. " ++
    "The value of the `version` option will be ignored."

/-- `Config::set_merge_imports`: when the legacy `merge_imports` was
explicitly set, warn, and — unless `imports_granularity` was itself
explicitly set — translate the boolean into `Crate`/`Preserve` and install
it.  The source reads the legacy value via its accessor, which marks the
legacy slot as used. -/
def Config.set_merge_imports (c : Config) : Config × List String :=
  if c.merge_imports.was_set then
    if c.imports_granularity.was_set then (c, [merge_imports_deprecation_warning])
    else
      let c := { c with merge_imports := { c.merge_imports with is_used := true } }
      let g := if c.merge_imports.value then ImportGranularity.Crate
               else ImportGranularity.Preserve
      ({ c with imports_granularity := { c.imports_granularity with value := g } },
       [merge_imports_deprecation_warning])
  else (c, [])

/-- `Config::set_fn_args_layout`: when the legacy `fn_args_layout` was
explicitly set, warn, and — unless `fn_params_layout` was itself
explicitly set — copy the legacy value into `fn_params_layout` (reading it
via the accessor, which marks the legacy slot as used). -/
def Config.set_fn_args_layout (c : Config) : Config × List String :=
  if c.fn_args_layout.was_set then
    if c.fn_params_layout.was_set then (c, [fn_args_layout_deprecation_warning])
    else
      let c := { c with fn_args_layout := { c.fn_args_layout with is_used := true } }
      ({ c with fn_params_layout :=
          { c.fn_params_layout with value := c.fn_args_layout.value } },
       [fn_args_layout_deprecation_warning])
  else (c, [])

/-- `Config::set_hide_parse_errors`: when the legacy `hide_parse_errors`
was explicitly set, warn, and — unless `show_parse_errors` was itself
explicitly set — copy the legacy boolean verbatim into
`show_parse_errors` (reading it via the accessor, which marks the legacy
slot as used). -/
def Config.set_hide_parse_errors (c : Config) : Config × List String :=
  if c.hide_parse_errors.was_set then
    if c.show_parse_errors.was_set then (c, [hide_parse_errors_deprecation_warning])
    else
      let c := { c with hide_parse_errors := { c.hide_parse_errors with is_used := true } }
      ({ c with show_parse_errors :=
          { c.show_parse_errors with value := c.hide_parse_errors.value } },
       [hide_parse_errors_deprecation_warning])
  else (c, [])

/-- `Config::set_version`: when the legacy `version` was explicitly set,
emit the deprecation warning, plus the precedence warning when
`style_edition` was also set (by file or CLI); the registry itself is left
untouched — no value is installed into `style_edition`. -/
def Config.set_version (c : Config) : Config × List String :=
  if c.version.was_set = false then (c, [])
  else
    (c, [version_deprecation_warning] ++
      (if c.style_edition.was_set || c.style_edition.was_set_cli then
        [version_precedence_warning]
      else []))

/-! ### Merge from the Partial Overlay -/

/-- One per-option merge step of `fill_from_parsed_config`: when the
overlay holds a value, pass it through the Stability Oracle; on acceptance
install it and mark `was_set`, on rejection keep the slot untouched and
keep the oracle warnings. -/
def merge_slot {T : Type} [ConfigType T] (nightly : Bool) (name : String)
    (slot : ConfigOption T) (parsed_value : Option T) : ConfigOption T × List String :=
  match parsed_value with
  | none => (slot, [])
  | some option_value =>
    let r := is_stable_option_and_value nightly name slot.is_stable option_value
    if r.1 then ({ slot with was_set := true, value := option_value }, r.2)
    else (slot, r.2)

/-- `Config::fill_from_parsed_config`: merge every overlay field through
the oracle, then run — in the fixed order of the source — heuristics
recomputation, ignore-prefixing, and the four alias reconciliations. -/
def Config.fill_from_parsed_config (c : Config) (nightly : Bool) (parsed : PartialConfig)
    (dir : String) : Config × List String :=
  let m01 := merge_slot nightly "max_width" c.max_width parsed.max_width
  let m02 := merge_slot nightly "use_small_heuristics" c.use_small_heuristics
    parsed.use_small_heuristics
  let m03 := merge_slot nightly "fn_call_width" c.fn_call_width parsed.fn_call_width
  let m04 := merge_slot nightly "attr_fn_like_width" c.attr_fn_like_width
    parsed.attr_fn_like_width
  let m05 := merge_slot nightly "struct_lit_width" c.struct_lit_width parsed.struct_lit_width
  let m06 := merge_slot nightly "struct_variant_width" c.struct_variant_width
    parsed.struct_variant_width
  let m07 := merge_slot nightly "array_width" c.array_width parsed.array_width
  let m08 := merge_slot nightly "chain_width" c.chain_width parsed.chain_width
  let m09 := merge_slot nightly "single_line_if_else_max_width"
    c.single_line_if_else_max_width parsed.single_line_if_else_max_width
  let m10 := merge_slot nightly "single_line_let_else_max_width"
    c.single_line_let_else_max_width parsed.single_line_let_else_max_width
  let m11 := merge_slot nightly "merge_imports" c.merge_imports parsed.merge_imports
  let m12 := merge_slot nightly "imports_granularity" c.imports_granularity
    parsed.imports_granularity
  let m13 := merge_slot nightly "fn_args_layout" c.fn_args_layout parsed.fn_args_layout
  let m14 := merge_slot nightly "fn_params_layout" c.fn_params_layout parsed.fn_params_layout
  let m15 := merge_slot nightly "hide_parse_errors" c.hide_parse_errors
    parsed.hide_parse_errors
  let m16 := merge_slot nightly "show_parse_errors" c.show_parse_errors
    parsed.show_parse_errors
  let m17 := merge_slot nightly "version" c.version parsed.version
  let m18 := merge_slot nightly "style_edition" c.style_edition parsed.style_edition
  let m19 := merge_slot nightly "ignore" c.ignore parsed.ignore
  let c :=
    { c with
        max_width := m01.1, use_small_heuristics := m02.1, fn_call_width := m03.1,
        attr_fn_like_width := m04.1, struct_lit_width := m05.1,
        struct_variant_width := m06.1, array_width := m07.1, chain_width := m08.1,
        single_line_if_else_max_width := m09.1, single_line_let_else_max_width := m10.1,
        merge_imports := m11.1, imports_granularity := m12.1, fn_args_layout := m13.1,
        fn_params_layout := m14.1, hide_parse_errors := m15.1, show_parse_errors := m16.1,
        version := m17.1, style_edition := m18.1, ignore := m19.1 }
  let merge_warnings :=
    m01.2 ++ m02.2 ++ m03.2 ++ m04.2 ++ m05.2 ++ m06.2 ++ m07.2 ++ m08.2 ++ m09.2 ++
      m10.2 ++ m11.2 ++ m12.2 ++ m13.2 ++ m14.2 ++ m15.2 ++ m16.2 ++ m17.2 ++ m18.2 ++ m19.2
  let r1 := c.set_heuristics
  let c := r1.1.set_ignore dir
  let r3 := c.set_merge_imports
  let r4 := r3.1.set_fn_args_layout
  let r5 := r4.1.set_hide_parse_errors
  let r6 := r5.1.set_version
  (r6.1, merge_warnings ++ r1.2 ++ r3.2 ++ r4.2 ++ r5.2 ++ r6.2)

/-! ### Setter surfaces

`ConfigSetter` (`config.set()`): assigns the slot `value` only — it
marks neither `was_set` nor `was_set_cli` — then runs the per-option
recomputation arm selected by the `match stringify!($i)` of the macro (inlined
per option below, exactly as the macro expands it). -/

namespace ConfigSetter

/-- `config.set().max_width(v)`: value assignment plus heuristics rerun. -/
def max_width (c : Config) (value : Nat) : Config × List String :=
  (({ c with max_width := { c.max_width with value := value } } : Config)).set_heuristics

/-- `config.set().use_small_heuristics(v)`. -/
def use_small_heuristics (c : Config) (value : Heuristics) : Config × List String :=
  (({ c with use_small_heuristics := { c.use_small_heuristics with value := value } } :
    Config)).set_heuristics

/-- `config.set().fn_call_width(v)`. -/
def fn_call_width (c : Config) (value : Nat) : Config × List String :=
  (({ c with fn_call_width := { c.fn_call_width with value := value } } :
    Config)).set_heuristics

/-- `config.set().attr_fn_like_width(v)`. -/
def attr_fn_like_width (c : Config) (value : Nat) : Config × List String :=
  (({ c with attr_fn_like_width := { c.attr_fn_like_width with value := value } } :
    Config)).set_heuristics

/-- `config.set().struct_lit_width(v)`. -/
def struct_lit_width (c : Config) (value : Nat) : Config × List String :=
  (({ c with struct_lit_width := { c.struct_lit_width with value := value } } :
    Config)).set_heuristics

/-- `config.set().struct_variant_width(v)`. -/
def struct_variant_width (c : Config) (value : Nat) : Config × List String :=
  (({ c with struct_variant_width := { c.struct_variant_width with value := value } } :
    Config)).set_heuristics

/-- `config.set().array_width(v)`. -/
def array_width (c : Config) (value : Nat) : Config × List String :=
  (({ c with array_width := { c.array_width with value := value } } : Config)).set_heuristics

/-- `config.set().chain_width(v)`. -/
def chain_width (c : Config) (value : Nat) : Config × List String :=
  (({ c with chain_width := { c.chain_width with value := value } } : Config)).set_heuristics

/-- `config.set().single_line_if_else_max_width(v)`. -/
def single_line_if_else_max_width (c : Config) (value : Nat) : Config × List String :=
  (({ c with single_line_if_else_max_width :=
      { c.single_line_if_else_max_width with value := value } } : Config)).set_heuristics

/-- `config.set().single_line_let_else_max_width(v)`. -/
def single_line_let_else_max_width (c : Config) (value : Nat) : Config × List String :=
  (({ c with single_line_let_else_max_width :=
      { c.single_line_let_else_max_width with value := value } } : Config)).set_heuristics

/-- `config.set().merge_imports(v)`: value assignment plus the
`merge_imports` reconciliation rerun. -/
def merge_imports (c : Config) (value : Bool) : Config × List String :=
  (({ c with merge_imports := { c.merge_imports with value := value } } :
    Config)).set_merge_imports

/-- `config.set().imports_granularity(v)`: no recomputation arm. -/
def imports_granularity (c : Config) (value : ImportGranularity) : Config × List String :=
  ({ c with imports_granularity := { c.imports_granularity with value := value } }, [])

/-- `config.set().fn_args_layout(v)`: value assignment plus the
`fn_args_layout` reconciliation rerun. -/
def fn_args_layout (c : Config) (value : Density) : Config × List String :=
  (({ c with fn_args_layout := { c.fn_args_layout with value := value } } :
    Config)).set_fn_args_layout

/-- `config.set().fn_params_layout(v)`: no recomputation arm. -/
def fn_params_layout (c : Config) (value : Density) : Config × List String :=
  ({ c with fn_params_layout := { c.fn_params_layout with value := value } }, [])

/-- `config.set().hide_parse_errors(v)`: value assignment plus the
`hide_parse_errors` reconciliation rerun. -/
def hide_parse_errors (c : Config) (value : Bool) : Config × List String :=
  (({ c with hide_parse_errors := { c.hide_parse_errors with value := value } } :
    Config)).set_hide_parse_errors

/-- `config.set().show_parse_errors(v)`: no recomputation arm. -/
def show_parse_errors (c : Config) (value : Bool) : Config × List String :=
  ({ c with show_parse_errors := { c.show_parse_errors with value := value } }, [])

/-- `config.set().version(v)`: value assignment plus the `version`
reconciliation rerun. -/
def version (c : Config) (value : Version) : Config × List String :=
  (({ c with version := { c.version with value := value } } : Config)).set_version

/-- `config.set().style_edition(v)`: no recomputation arm. -/
def style_edition (c : Config) (value : StyleEdition) : Config × List String :=
  ({ c with style_edition := { c.style_edition with value := value } }, [])

/-- `config.set().ignore(v)`: no recomputation arm. -/
def ignore (c : Config) (value : IgnoreList) : Config × List String :=
  ({ c with ignore := { c.ignore with value := value } }, [])

end ConfigSetter

/-! `CliConfigSetter` (`config.set_cli()`): assigns the slot `value`,
marks `was_set_cli`, then runs the same per-option recomputation arm. -/

namespace CliConfigSetter

/-- `config.set_cli().max_width(v)`. -/
def max_width (c : Config) (value : Nat) : Config × List String :=
  (({ c with max_width :=
      { c.max_width with value := value, was_set_cli := true } } : Config)).set_heuristics

/-- `config.set_cli().use_small_heuristics(v)`. -/
def use_small_heuristics (c : Config) (value : Heuristics) : Config × List String :=
  (({ c with use_small_heuristics :=
      { c.use_small_heuristics with value := value, was_set_cli := true } } :
    Config)).set_heuristics

/-- `config.set_cli().fn_call_width(v)`. -/
def fn_call_width (c : Config) (value : Nat) : Config × List String :=
  (({ c with fn_call_width :=
      { c.fn_call_width with value := value, was_set_cli := true } } : Config)).set_heuristics

/-- `config.set_cli().attr_fn_like_width(v)`. -/
def attr_fn_like_width (c : Config) (value : Nat) : Config × List String :=
  (({ c with attr_fn_like_width :=
      { c.attr_fn_like_width with value := value, was_set_cli := true } } :
    Config)).set_heuristics

/-- `config.set_cli().struct_lit_width(v)`. -/
def struct_lit_width (c : Config) (value : Nat) : Config × List String :=
  (({ c with struct_lit_width :=
      { c.struct_lit_width with value := value, was_set_cli := true } } :
    Config)).set_heuristics

/-- `config.set_cli().struct_variant_width(v)`. -/
def struct_variant_width (c : Config) (value : Nat) : Config × List String :=
  (({ c with struct_variant_width :=
      { c.struct_variant_width with value := value, was_set_cli := true } } :
    Config)).set_heuristics

/-- `config.set_cli().array_width(v)`. -/
def array_width (c : Config) (value : Nat) : Config × List String :=
  (({ c with array_width :=
      { c.array_width with value := value, was_set_cli := true } } : Config)).set_heuristics

/-- `config.set_cli().chain_width(v)`. -/
def chain_width (c : Config) (value : Nat) : Config × List String :=
  (({ c with chain_width :=
      { c.chain_width with value := value, was_set_cli := true } } : Config)).set_heuristics

/-- `config.set_cli().single_line_if_else_max_width(v)`. -/
def single_line_if_else_max_width (c : Config) (value : Nat) : Config × List String :=
  (({ c with single_line_if_else_max_width :=
      { c.single_line_if_else_max_width with value := value, was_set_cli := true } } :
    Config)).set_heuristics

/-- `config.set_cli().single_line_let_else_max_width(v)`. -/
def single_line_let_else_max_width (c : Config) (value : Nat) : Config × List String :=
  (({ c with single_line_let_else_max_width :=
      { c.single_line_let_else_max_width with value := value, was_set_cli := true } } :
    Config)).set_heuristics

/-- `config.set_cli().merge_imports(v)`. -/
def merge_imports (c : Config) (value : Bool) : Config × List String :=
  (({ c with merge_imports :=
      { c.merge_imports with value := value, was_set_cli := true } } :
    Config)).set_merge_imports

/-- `config.set_cli().imports_granularity(v)`. -/
def imports_granularity (c : Config) (value : ImportGranularity) : Config × List String :=
  ({ c with imports_granularity :=
      { c.imports_granularity with value := value, was_set_cli := true } }, [])

/-- `config.set_cli().fn_args_layout(v)`. -/
def fn_args_layout (c : Config) (value : Density) : Config × List String :=
  (({ c with fn_args_layout :=
      { c.fn_args_layout with value := value, was_set_cli := true } } :
    Config)).set_fn_args_layout

/-- `config.set_cli().fn_params_layout(v)`. -/
def fn_params_layout (c : Config) (value : Density) : Config × List String :=
  ({ c with fn_params_layout :=
      { c.fn_params_layout with value := value, was_set_cli := true } }, [])

/-- `config.set_cli().hide_parse_errors(v)`. -/
def hide_parse_errors (c : Config) (value : Bool) : Config × List String :=
  (({ c with hide_parse_errors :=
      { c.hide_parse_errors with value := value, was_set_cli := true } } :
    Config)).set_hide_parse_errors

/-- `config.set_cli().show_parse_errors(v)`. -/
def show_parse_errors (c : Config) (value : Bool) : Config × List String :=
  ({ c with show_parse_errors :=
      { c.show_parse_errors with value := value, was_set_cli := true } }, [])

/-- `config.set_cli().version(v)`. -/
def version (c : Config) (value : Version) : Config × List String :=
  (({ c with version :=
      { c.version with value := value, was_set_cli := true } } : Config)).set_version

/-- `config.set_cli().style_edition(v)`. -/
def style_edition (c : Config) (value : StyleEdition) : Config × List String :=
  ({ c with style_edition :=
      { c.style_edition with value := value, was_set_cli := true } }, [])

/-- `config.set_cli().ignore(v)`. -/
def ignore (c : Config) (value : IgnoreList) : Config × List String :=
  ({ c with ignore := { c.ignore with value := value, was_set_cli := true } }, [])

end CliConfigSetter

/-- `ConfigWasSet` (`config.was_set()`): per-option query of the
`was_set` flag; shown here for the option the claims exercise. -/
def ConfigWasSet.max_width (c : Config) : Bool := c.max_width.was_set

/-- `config.was_set().merge_imports()`. -/
def ConfigWasSet.merge_imports (c : Config) : Bool := c.merge_imports.was_set

/-- `CliConfigWasSet` (`config.was_set_cli()`). -/
def CliConfigWasSet.max_width (c : Config) : Bool := c.max_width.was_set_cli

/-! ### String override (`override_value`) and queries -/

/-- The `expect` message of `override_value` on unparsable text: names the
key, the raw text, and the expected semantic type. -/
def override_parse_error (key val ty : String) : String :=
  "Failed to parse override for " ++ key ++ " (\"" ++ val ++ "\") as a " ++ ty

/-- The panic message of `override_value` on an unknown key. -/
def override_unknown_key_error (key : String) : String :=
  "Unknown config key in override: " ++ key

/-- First `match key` of `Config::override_value`: parse the value text
into the semantic type of the option (fatal on failure, with the message naming
key, text and expected type), then install it and mark `was_set` — with no
Stability Oracle involvement; unknown keys are fatal. -/
def Config.override_assign (c : Config) (key val : String) : Except String Config :=
  if key = "max_width" then
    match usize_from_str val with
    | some v => .ok { c with max_width := { c.max_width with was_set := true, value := v } }
    | none => .error (override_parse_error "max_width" val "usize")
  else if key = "use_small_heuristics" then
    match heuristics_from_str val with
    | some v => .ok { c with use_small_heuristics :=
        { c.use_small_heuristics with was_set := true, value := v } }
    | none => .error (override_parse_error "use_small_heuristics" val "Heuristics")
  else if key = "fn_call_width" then
    match usize_from_str val with
    | some v => .ok { c with fn_call_width :=
        { c.fn_call_width with was_set := true, value := v } }
    | none => .error (override_parse_error "fn_call_width" val "usize")
  else if key = "attr_fn_like_width" then
    match usize_from_str val with
    | some v => .ok { c with attr_fn_like_width :=
        { c.attr_fn_like_width with was_set := true, value := v } }
    | none => .error (override_parse_error "attr_fn_like_width" val "usize")
  else if key = "struct_lit_width" then
    match usize_from_str val with
    | some v => .ok { c with struct_lit_width :=
        { c.struct_lit_width with was_set := true, value := v } }
    | none => .error (override_parse_error "struct_lit_width" val "usize")
  else if key = "struct_variant_width" then
    match usize_from_str val with
    | some v => .ok { c with struct_variant_width :=
        { c.struct_variant_width with was_set := true, value := v } }
    | none => .error (override_parse_error "struct_variant_width" val "usize")
  else if key = "array_width" then
    match usize_from_str val with
    | some v => .ok { c with array_width :=
        { c.array_width with was_set := true, value := v } }
    | none => .error (override_parse_error "array_width" val "usize")
  else if key = "chain_width" then
    match usize_from_str val with
    | some v => .ok { c with chain_width :=
        { c.chain_width with was_set := true, value := v } }
    | none => .error (override_parse_error "chain_width" val "usize")
  else if key = "single_line_if_else_max_width" then
    match usize_from_str val with
    | some v => .ok { c with single_line_if_else_max_width :=
        { c.single_line_if_else_max_width with was_set := true, value := v } }
    | none => .error (override_parse_error "single_line_if_else_max_width" val "usize")
  else if key = "single_line_let_else_max_width" then
    match usize_from_str val with
    | some v => .ok { c with single_line_let_else_max_width :=
        { c.single_line_let_else_max_width with was_set := true, value := v } }
    | none => .error (override_parse_error "single_line_let_else_max_width" val "usize")
  else if key = "merge_imports" then
    match bool_from_str val with
    | some v => .ok { c with merge_imports :=
        { c.merge_imports with was_set := true, value := v } }
    | none => .error (override_parse_error "merge_imports" val "bool")
  else if key = "imports_granularity" then
    match import_granularity_from_str val with
    | some v => .ok { c with imports_granularity :=
        { c.imports_granularity with was_set := true, value := v } }
    | none => .error (override_parse_error "imports_granularity" val "ImportGranularity")
  else if key = "fn_args_layout" then
    match density_from_str val with
    | some v => .ok { c with fn_args_layout :=
        { c.fn_args_layout with was_set := true, value := v } }
    | none => .error (override_parse_error "fn_args_layout" val "Density")
  else if key = "fn_params_layout" then
    match density_from_str val with
    | some v => .ok { c with fn_params_layout :=
        { c.fn_params_layout with was_set := true, value := v } }
    | none => .error (override_parse_error "fn_params_layout" val "Density")
  else if key = "hide_parse_errors" then
    match bool_from_str val with
    | some v => .ok { c with hide_parse_errors :=
        { c.hide_parse_errors with was_set := true, value := v } }
    | none => .error (override_parse_error "hide_parse_errors" val "bool")
  else if key = "show_parse_errors" then
    match bool_from_str val with
    | some v => .ok { c with show_parse_errors :=
        { c.show_parse_errors with was_set := true, value := v } }
    | none => .error (override_parse_error "show_parse_errors" val "bool")
  else if key = "version" then
    match version_from_str val with
    | some v => .ok { c with version := { c.version with was_set := true, value := v } }
    | none => .error (override_parse_error "version" val "Version")
  else if key = "style_edition" then
    match style_edition_from_str val with
    | some v => .ok { c with style_edition :=
        { c.style_edition with was_set := true, value := v } }
    | none => .error (override_parse_error "style_edition" val "StyleEdition")
  else if key = "ignore" then
    match ignore_list_from_str val with
    | some v => .ok { c with ignore := { c.ignore with was_set := true, value := v } }
    | none => .error (override_parse_error "ignore" val "IgnoreList")
  else .error (override_unknown_key_error key)

/-- Second `match key` of `Config::override_value`: the fixed per-key
recomputation arm (heuristics for the ten width-governing keys, one alias
reconciliation for each legacy key, nothing otherwise). -/
def Config.override_recompute (c : Config) (key : String) : Config × List String :=
  if key = "max_width" || key = "use_small_heuristics" || key = "fn_call_width" ||
      key = "single_line_if_else_max_width" || key = "single_line_let_else_max_width" ||
      key = "attr_fn_like_width" || key = "struct_lit_width" ||
      key = "struct_variant_width" || key = "array_width" || key = "chain_width" then
    c.set_heuristics
  else if key = "merge_imports" then c.set_merge_imports
  else if key = "fn_args_layout" then c.set_fn_args_layout
  else if key = "hide_parse_errors" then c.set_hide_parse_errors
  else if key = "version" then c.set_version
  else (c, [])

/-- `Config::override_value(key, val)`: the fallible ad-hoc override path —
parse-and-assign (fatal on unknown key or unparsable text, modelled as
`Except.error` carrying the panic message), then the per-key
recomputation. -/
def Config.override_value (c : Config) (key val : String) :
    Except String (Config × List String) :=
  match c.override_assign key val with
  | .error e => .error e
  | .ok c => .ok (c.override_recompute key)

/-- `Config::is_valid_name`: whether a key names a catalog option. -/
def Config.is_valid_name (name : String) : Bool :=
  name = "max_width" || name = "use_small_heuristics" || name = "fn_call_width" ||
    name = "attr_fn_like_width" || name = "struct_lit_width" ||
    name = "struct_variant_width" || name = "array_width" || name = "chain_width" ||
    name = "single_line_if_else_max_width" || name = "single_line_let_else_max_width" ||
    name = "merge_imports" || name = "imports_granularity" || name = "fn_args_layout" ||
    name = "fn_params_layout" || name = "hide_parse_errors" || name = "show_parse_errors" ||
    name = "version" || name = "style_edition" || name = "ignore"

/-- `Config::is_valid_key_val`: whether the key names an option and the
text parses into the semantic type of that option. -/
def Config.is_valid_key_val (key val : String) : Bool :=
  if key = "max_width" then (usize_from_str val).isSome
  else if key = "use_small_heuristics" then (heuristics_from_str val).isSome
  else if key = "fn_call_width" then (usize_from_str val).isSome
  else if key = "attr_fn_like_width" then (usize_from_str val).isSome
  else if key = "struct_lit_width" then (usize_from_str val).isSome
  else if key = "struct_variant_width" then (usize_from_str val).isSome
  else if key = "array_width" then (usize_from_str val).isSome
  else if key = "chain_width" then (usize_from_str val).isSome
  else if key = "single_line_if_else_max_width" then (usize_from_str val).isSome
  else if key = "single_line_let_else_max_width" then (usize_from_str val).isSome
  else if key = "merge_imports" then (bool_from_str val).isSome
  else if key = "imports_granularity" then (import_granularity_from_str val).isSome
  else if key = "fn_args_layout" then (density_from_str val).isSome
  else if key = "fn_params_layout" then (density_from_str val).isSome
  else if key = "hide_parse_errors" then (bool_from_str val).isSome
  else if key = "show_parse_errors" then (bool_from_str val).isSome
  else if key = "version" then (version_from_str val).isSome
  else if key = "style_edition" then (style_edition_from_str val).isSome
  else if key = "ignore" then (ignore_list_from_str val).isSome
  else false

/-- `Config::is_default(key)`: true iff the key names an option that was
explicitly set and whose current value equals the compiled default — where
the source fixes the comparison edition to `Edition2015`
(`let style_edition = StyleEdition::Edition2015`). -/
def Config.is_default (c : Config) (key : String) : Bool :=
  let se := StyleEdition.Edition2015
  if key = "max_width" then
    c.max_width.was_set && c.max_width.value = default_max_width se
  else if key = "use_small_heuristics" then
    c.use_small_heuristics.was_set &&
      c.use_small_heuristics.value = default_use_small_heuristics se
  else if key = "fn_call_width" then
    c.fn_call_width.was_set && c.fn_call_width.value = default_fn_call_width se
  else if key = "attr_fn_like_width" then
    c.attr_fn_like_width.was_set && c.attr_fn_like_width.value = default_attr_fn_like_width se
  else if key = "struct_lit_width" then
    c.struct_lit_width.was_set && c.struct_lit_width.value = default_struct_lit_width se
  else if key = "struct_variant_width" then
    c.struct_variant_width.was_set &&
      c.struct_variant_width.value = default_struct_variant_width se
  else if key = "array_width" then
    c.array_width.was_set && c.array_width.value = default_array_width se
  else if key = "chain_width" then
    c.chain_width.was_set && c.chain_width.value = default_chain_width se
  else if key = "single_line_if_else_max_width" then
    c.single_line_if_else_max_width.was_set &&
      c.single_line_if_else_max_width.value = default_single_line_if_else_max_width se
  else if key = "single_line_let_else_max_width" then
    c.single_line_let_else_max_width.was_set &&
      c.single_line_let_else_max_width.value = default_single_line_let_else_max_width se
  else if key = "merge_imports" then
    c.merge_imports.was_set && c.merge_imports.value = default_merge_imports se
  else if key = "imports_granularity" then
    c.imports_granularity.was_set &&
      c.imports_granularity.value = default_imports_granularity se
  else if key = "fn_args_layout" then
    c.fn_args_layout.was_set && c.fn_args_layout.value = default_fn_args_layout se
  else if key = "fn_params_layout" then
    c.fn_params_layout.was_set && c.fn_params_layout.value = default_fn_params_layout se
  else if key = "hide_parse_errors" then
    c.hide_parse_errors.was_set && c.hide_parse_errors.value = default_hide_parse_errors se
  else if key = "show_parse_errors" then
    c.show_parse_errors.was_set && c.show_parse_errors.value = default_show_parse_errors se
  else if key = "version" then
    c.version.was_set && c.version.value = default_version se
  else if key = "style_edition" then
    c.style_edition.was_set && c.style_edition.value = default_style_edition se
  else if key = "ignore" then
    c.ignore.was_set && c.ignore.value = default_ignore se
  else false

/-- `Config::used_options`: the sparse overlay of options whose `is_used`
flag is set. -/
def Config.used_options (c : Config) : PartialConfig where
  max_width := if c.max_width.is_used then some c.max_width.value else none
  use_small_heuristics :=
    if c.use_small_heuristics.is_used then some c.use_small_heuristics.value else none
  fn_call_width := if c.fn_call_width.is_used then some c.fn_call_width.value else none
  attr_fn_like_width :=
    if c.attr_fn_like_width.is_used then some c.attr_fn_like_width.value else none
  struct_lit_width :=
    if c.struct_lit_width.is_used then some c.struct_lit_width.value else none
  struct_variant_width :=
    if c.struct_variant_width.is_used then some c.struct_variant_width.value else none
  array_width := if c.array_width.is_used then some c.array_width.value else none
  chain_width := if c.chain_width.is_used then some c.chain_width.value else none
  single_line_if_else_max_width :=
    if c.single_line_if_else_max_width.is_used then
      some c.single_line_if_else_max_width.value
    else none
  single_line_let_else_max_width :=
    if c.single_line_let_else_max_width.is_used then
      some c.single_line_let_else_max_width.value
    else none
  merge_imports := if c.merge_imports.is_used then some c.merge_imports.value else none
  imports_granularity :=
    if c.imports_granularity.is_used then some c.imports_granularity.value else none
  fn_args_layout := if c.fn_args_layout.is_used then some c.fn_args_layout.value else none
  fn_params_layout :=
    if c.fn_params_layout.is_used then some c.fn_params_layout.value else none
  hide_parse_errors :=
    if c.hide_parse_errors.is_used then some c.hide_parse_errors.value else none
  show_parse_errors :=
    if c.show_parse_errors.is_used then some c.show_parse_errors.value else none
  version := if c.version.is_used then some c.version.value else none
  style_edition := if c.style_edition.is_used then some c.style_edition.value else none
  ignore := if c.ignore.is_used then some c.ignore.value else none

/-- Modelled from the spec: the reconciliation-rule translation of the
legacy `version` values into the replacement semantic type
(`style_edition`): the first formatting version corresponds to the 2015
style edition, the second to the 2024 one. -/
def Version.to_style_edition : Version → StyleEdition
  | .One => .Edition2015
  | .Two => .Edition2024

/-- Rendering used to feed a typed value back through the textual override
path (the exact variant-name strings accepted by the `FromStr` parsers). -/
def bool_to_str (b : Bool) : String := if b then "true" else "false"

/-- Provenance comparison for one slot: both `was_set` and `was_set_cli`
at most grow (`false ≤ true` in the Boolean order). -/
def slot_flags_le {T : Type} (a b : ConfigOption T) : Prop :=
  a.was_set ≤ b.was_set ∧ a.was_set_cli ≤ b.was_set_cli

/-- Provenance monotonicity between two registry states: in every slot the
`was_set` and `was_set_cli` flags at most grow. -/
def Config.flags_le (c c' : Config) : Prop :=
  slot_flags_le c.max_width c'.max_width ∧
  slot_flags_le c.use_small_heuristics c'.use_small_heuristics ∧
  slot_flags_le c.fn_call_width c'.fn_call_width ∧
  slot_flags_le c.attr_fn_like_width c'.attr_fn_like_width ∧
  slot_flags_le c.struct_lit_width c'.struct_lit_width ∧
  slot_flags_le c.struct_variant_width c'.struct_variant_width ∧
  slot_flags_le c.array_width c'.array_width ∧
  slot_flags_le c.chain_width c'.chain_width ∧
  slot_flags_le c.single_line_if_else_max_width c'.single_line_if_else_max_width ∧
  slot_flags_le c.single_line_let_else_max_width c'.single_line_let_else_max_width ∧
  slot_flags_le c.merge_imports c'.merge_imports ∧
  slot_flags_le c.imports_granularity c'.imports_granularity ∧
  slot_flags_le c.fn_args_layout c'.fn_args_layout ∧
  slot_flags_le c.fn_params_layout c'.fn_params_layout ∧
  slot_flags_le c.hide_parse_errors c'.hide_parse_errors ∧
  slot_flags_le c.show_parse_errors c'.show_parse_errors ∧
  slot_flags_le c.version c'.version ∧
  slot_flags_le c.style_edition c'.style_edition ∧
  slot_flags_le c.ignore c'.ignore

/-- Textual rendering of a `Density` value, matching its `FromStr` names
(used to feed a typed value back through the textual override path). -/
def density_to_str : Density → String
  | .Compressed => "Compressed"
  | .Tall => "Tall"
  | .Vertical => "Vertical"

/-- Textual rendering of a `Version` value, matching its `FromStr` names. -/
def version_to_str : Version → String
  | .One => "One"
  | .Two => "Two"

end RustfmtConfig

namespace RustfmtConfig

/-- Claim C1: the Stability Oracle matches the spec decision table for
every combination of inputs — the assignment is accepted iff the build is
nightly or both the option and the variant are stable, and on a non-nightly
channel the emitted warning names the unstable option resp. the unstable
variant. -/
theorem claim_C1 {T : Type} [ConfigType T] (nightly option_stable : Bool)
    (name : String) (v : T) :
    (is_stable_option_and_value nightly name option_stable v).1 =
      (nightly || (option_stable && ConfigType.stable_variant v)) ∧
    (is_stable_option_and_value nightly name option_stable v).2 =
      (if nightly then []
       else if option_stable = false then [option_unstable_warning name v]
       else if ConfigType.stable_variant v = false then [variant_unstable_warning name v]
       else []) := by
  cases nightly <;> cases option_stable <;> cases h : ConfigType.stable_variant v <;>
    simp [is_stable_option_and_value, h]

/-- Claim C10: the `hide_parse_errors` reconciliation copies the legacy
boolean verbatim into the `show_parse_errors` slot — with no logical
negation — whenever `hide_parse_errors` was explicitly set and
`show_parse_errors` was not. -/
theorem claim_C10 (c : Config) :
    (c.set_hide_parse_errors).1.show_parse_errors.value =
      (if c.hide_parse_errors.was_set && !c.show_parse_errors.was_set then
        c.hide_parse_errors.value
      else c.show_parse_errors.value) := by
  unfold Config.set_hide_parse_errors
  cases h1 : c.hide_parse_errors.was_set <;> cases h2 : c.show_parse_errors.was_set <;>
    simp [h1, h2]

/-- Claim C4 (amended): the `version` reconciliation step only emits
warnings — the deprecation warning when `version` was explicitly set, plus
the precedence warning when `style_edition` was also set by file or CLI —
and returns the registry unchanged; no translated value is installed into
the `style_edition` slot. -/
theorem claim_C4_amended (c : Config) :
    (c.set_version).1 = c ∧
    (c.set_version).2 =
      (if c.version.was_set then
        version_deprecation_warning ::
          (if c.style_edition.was_set || c.style_edition.was_set_cli then
            [version_precedence_warning]
          else [])
      else []) := by
  unfold Config.set_version
  cases h : c.version.was_set <;> simp [h]

/-- Claim C4 counterexample: merging a file that sets only `version = Two`
into a default 2015 registry leaves the `style_edition` slot at
`Edition2015`, not at the translation `Edition2024` of the legacy value. -/
theorem claim_C4_counterexample :
    (((Config.default_with_style_edition .Edition2015).fill_from_parsed_config true
        { version := some .Two } "dir").1.version.was_set = true) ∧
    (((Config.default_with_style_edition .Edition2015).fill_from_parsed_config true
        { version := some .Two } "dir").1.style_edition.was_set = false) ∧
    (((Config.default_with_style_edition .Edition2015).fill_from_parsed_config true
        { version := some .Two } "dir").1.style_edition.value = StyleEdition.Edition2015) ∧
    Version.to_style_edition .Two = StyleEdition.Edition2024 ∧
    StyleEdition.Edition2015 ≠ StyleEdition.Edition2024 := by
  refine ⟨rfl, rfl, rfl, rfl, by decide⟩

end RustfmtConfig
namespace RustfmtConfig

theorem set_heuristics_preserves_was_set (c : Config) :
    ((c.set_heuristics).1.max_width.was_set = c.max_width.was_set) ∧
    ((c.set_heuristics).1.use_small_heuristics.was_set = c.use_small_heuristics.was_set) ∧
    ((c.set_heuristics).1.fn_call_width.was_set = c.fn_call_width.was_set) ∧
    ((c.set_heuristics).1.attr_fn_like_width.was_set = c.attr_fn_like_width.was_set) ∧
    ((c.set_heuristics).1.struct_lit_width.was_set = c.struct_lit_width.was_set) ∧
    ((c.set_heuristics).1.struct_variant_width.was_set = c.struct_variant_width.was_set) ∧
    ((c.set_heuristics).1.array_width.was_set = c.array_width.was_set) ∧
    ((c.set_heuristics).1.chain_width.was_set = c.chain_width.was_set) ∧
    ((c.set_heuristics).1.single_line_if_else_max_width.was_set =
      c.single_line_if_else_max_width.was_set) ∧
    ((c.set_heuristics).1.single_line_let_else_max_width.was_set =
      c.single_line_let_else_max_width.was_set) := by
  cases hm : c.use_small_heuristics.value <;>
    simp [Config.set_heuristics, Config.set_width_heuristics, hm]

theorem set_merge_imports_was_set (c : Config) :
    (c.set_merge_imports).1.merge_imports.was_set = c.merge_imports.was_set := by
  unfold Config.set_merge_imports
  cases h1 : c.merge_imports.was_set <;> cases h2 : c.imports_granularity.was_set <;>
    simp [h1, h2]

theorem set_fn_args_layout_was_set (c : Config) :
    (c.set_fn_args_layout).1.fn_args_layout.was_set = c.fn_args_layout.was_set := by
  unfold Config.set_fn_args_layout
  cases h1 : c.fn_args_layout.was_set <;> cases h2 : c.fn_params_layout.was_set <;>
    simp [h1, h2]

theorem set_hide_parse_errors_was_set (c : Config) :
    (c.set_hide_parse_errors).1.hide_parse_errors.was_set = c.hide_parse_errors.was_set := by
  unfold Config.set_hide_parse_errors
  cases h1 : c.hide_parse_errors.was_set <;> cases h2 : c.show_parse_errors.was_set <;>
    simp [h1, h2]

/-- Claim C3 (amended): the programmatic `set()` API never changes the
`was_set` flag of the assigned option — for every option and every value
the flag after `config.set().option(value)` equals the flag before;
`was_set` is marked only by file merge and `override_value`. -/
theorem claim_C3_amended (c : Config) :
    (∀ v, (ConfigSetter.max_width c v).1.max_width.was_set = c.max_width.was_set) ∧
    (∀ v, (ConfigSetter.use_small_heuristics c v).1.use_small_heuristics.was_set =
      c.use_small_heuristics.was_set) ∧
    (∀ v, (ConfigSetter.fn_call_width c v).1.fn_call_width.was_set =
      c.fn_call_width.was_set) ∧
    (∀ v, (ConfigSetter.attr_fn_like_width c v).1.attr_fn_like_width.was_set =
      c.attr_fn_like_width.was_set) ∧
    (∀ v, (ConfigSetter.struct_lit_width c v).1.struct_lit_width.was_set =
      c.struct_lit_width.was_set) ∧
    (∀ v, (ConfigSetter.struct_variant_width c v).1.struct_variant_width.was_set =
      c.struct_variant_width.was_set) ∧
    (∀ v, (ConfigSetter.array_width c v).1.array_width.was_set = c.array_width.was_set) ∧
    (∀ v, (ConfigSetter.chain_width c v).1.chain_width.was_set = c.chain_width.was_set) ∧
    (∀ v, (ConfigSetter.single_line_if_else_max_width c v).1.single_line_if_else_max_width.was_set =
      c.single_line_if_else_max_width.was_set) ∧
    (∀ v, (ConfigSetter.single_line_let_else_max_width c v).1.single_line_let_else_max_width.was_set =
      c.single_line_let_else_max_width.was_set) ∧
    (∀ v, (ConfigSetter.merge_imports c v).1.merge_imports.was_set =
      c.merge_imports.was_set) ∧
    (∀ v, (ConfigSetter.imports_granularity c v).1.imports_granularity.was_set =
      c.imports_granularity.was_set) ∧
    (∀ v, (ConfigSetter.fn_args_layout c v).1.fn_args_layout.was_set =
      c.fn_args_layout.was_set) ∧
    (∀ v, (ConfigSetter.fn_params_layout c v).1.fn_params_layout.was_set =
      c.fn_params_layout.was_set) ∧
    (∀ v, (ConfigSetter.hide_parse_errors c v).1.hide_parse_errors.was_set =
      c.hide_parse_errors.was_set) ∧
    (∀ v, (ConfigSetter.show_parse_errors c v).1.show_parse_errors.was_set =
      c.show_parse_errors.was_set) ∧
    (∀ v, (ConfigSetter.version c v).1.version.was_set = c.version.was_set) ∧
    (∀ v, (ConfigSetter.style_edition c v).1.style_edition.was_set =
      c.style_edition.was_set) ∧
    (∀ v, (ConfigSetter.ignore c v).1.ignore.was_set = c.ignore.was_set) := by
  refine ⟨?_, ?_, ?_, ?_, ?_, ?_, ?_, ?_, ?_, ?_, ?_, ?_, ?_, ?_, ?_, ?_, ?_, ?_, ?_⟩
  · intro v
    simpa [ConfigSetter.max_width] using
      (set_heuristics_preserves_was_set
        ({ c with max_width := { c.max_width with value := v } })).1
  · intro v
    simpa [ConfigSetter.use_small_heuristics] using
      (set_heuristics_preserves_was_set
        ({ c with use_small_heuristics := { c.use_small_heuristics with value := v } })).2.1
  · intro v
    simpa [ConfigSetter.fn_call_width] using
      (set_heuristics_preserves_was_set
        ({ c with fn_call_width := { c.fn_call_width with value := v } })).2.2.1
  · intro v
    simpa [ConfigSetter.attr_fn_like_width] using
      (set_heuristics_preserves_was_set
        ({ c with attr_fn_like_width := { c.attr_fn_like_width with value := v } })).2.2.2.1
  · intro v
    simpa [ConfigSetter.struct_lit_width] using
      (set_heuristics_preserves_was_set
        ({ c with struct_lit_width := { c.struct_lit_width with value := v } })).2.2.2.2.1
  · intro v
    simpa [ConfigSetter.struct_variant_width] using
      (set_heuristics_preserves_was_set
        ({ c with struct_variant_width :=
          { c.struct_variant_width with value := v } })).2.2.2.2.2.1
  · intro v
    simpa [ConfigSetter.array_width] using
      (set_heuristics_preserves_was_set
        ({ c with array_width := { c.array_width with value := v } })).2.2.2.2.2.2.1
  · intro v
    simpa [ConfigSetter.chain_width] using
      (set_heuristics_preserves_was_set
        ({ c with chain_width := { c.chain_width with value := v } })).2.2.2.2.2.2.2.1
  · intro v
    simpa [ConfigSetter.single_line_if_else_max_width] using
      (set_heuristics_preserves_was_set
        ({ c with single_line_if_else_max_width :=
          { c.single_line_if_else_max_width with value := v } })).2.2.2.2.2.2.2.2.1
  · intro v
    simpa [ConfigSetter.single_line_let_else_max_width] using
      (set_heuristics_preserves_was_set
        ({ c with single_line_let_else_max_width :=
          { c.single_line_let_else_max_width with value := v } })).2.2.2.2.2.2.2.2.2
  · intro v
    simpa [ConfigSetter.merge_imports] using
      set_merge_imports_was_set ({ c with merge_imports := { c.merge_imports with value := v } })
  · intro v; simp [ConfigSetter.imports_granularity]
  · intro v
    simpa [ConfigSetter.fn_args_layout] using
      set_fn_args_layout_was_set
        ({ c with fn_args_layout := { c.fn_args_layout with value := v } })
  · intro v; simp [ConfigSetter.fn_params_layout]
  · intro v
    simpa [ConfigSetter.hide_parse_errors] using
      set_hide_parse_errors_was_set
        ({ c with hide_parse_errors := { c.hide_parse_errors with value := v } })
  · intro v; simp [ConfigSetter.show_parse_errors]
  · intro v; simp [ConfigSetter.version, Config.set_version]
    cases h : ({ c with version := { c.version with value := v } } : Config).version.was_set <;>
      simp [h]
  · intro v; simp [ConfigSetter.style_edition]
  · intro v; simp [ConfigSetter.ignore]

/-- Claim C3 counterexample: after `config.set().max_width(99)` on a
default registry, `was_set().max_width()` reports `false`, not `true`. -/
theorem claim_C3_counterexample :
    ConfigWasSet.max_width
      (ConfigSetter.max_width (Config.default_with_style_edition .Edition2015) 99).1 = false := by
  rfl

end RustfmtConfig
namespace RustfmtConfig

/-- Claim C5 (amended): `is_default(key)` reports whether the option was
explicitly set and its current value equals the compiled default for the
fixed edition `Edition2015` hardcoded in the source, regardless of the
edition the registry was constructed with; unknown keys report `false`. -/
theorem claim_C5_amended (c : Config) :
    (c.is_default "max_width" = (c.max_width.was_set && decide (c.max_width.value = 100))) ∧
    (c.is_default "use_small_heuristics" =
      (c.use_small_heuristics.was_set &&
        decide (c.use_small_heuristics.value = Heuristics.Default))) ∧
    (c.is_default "fn_call_width" =
      (c.fn_call_width.was_set && decide (c.fn_call_width.value = 60))) ∧
    (c.is_default "attr_fn_like_width" =
      (c.attr_fn_like_width.was_set && decide (c.attr_fn_like_width.value = 70))) ∧
    (c.is_default "struct_lit_width" =
      (c.struct_lit_width.was_set && decide (c.struct_lit_width.value = 18))) ∧
    (c.is_default "struct_variant_width" =
      (c.struct_variant_width.was_set && decide (c.struct_variant_width.value = 35))) ∧
    (c.is_default "array_width" =
      (c.array_width.was_set && decide (c.array_width.value = 60))) ∧
    (c.is_default "chain_width" =
      (c.chain_width.was_set && decide (c.chain_width.value = 60))) ∧
    (c.is_default "single_line_if_else_max_width" =
      (c.single_line_if_else_max_width.was_set &&
        decide (c.single_line_if_else_max_width.value = 50))) ∧
    (c.is_default "single_line_let_else_max_width" =
      (c.single_line_let_else_max_width.was_set &&
        decide (c.single_line_let_else_max_width.value = 50))) ∧
    (c.is_default "merge_imports" =
      (c.merge_imports.was_set && decide (c.merge_imports.value = false))) ∧
    (c.is_default "imports_granularity" =
      (c.imports_granularity.was_set &&
        decide (c.imports_granularity.value = ImportGranularity.Preserve))) ∧
    (c.is_default "fn_args_layout" =
      (c.fn_args_layout.was_set && decide (c.fn_args_layout.value = Density.Tall))) ∧
    (c.is_default "fn_params_layout" =
      (c.fn_params_layout.was_set && decide (c.fn_params_layout.value = Density.Tall))) ∧
    (c.is_default "hide_parse_errors" =
      (c.hide_parse_errors.was_set && decide (c.hide_parse_errors.value = false))) ∧
    (c.is_default "show_parse_errors" =
      (c.show_parse_errors.was_set && decide (c.show_parse_errors.value = true))) ∧
    (c.is_default "version" = (c.version.was_set && decide (c.version.value = Version.One))) ∧
    (c.is_default "style_edition" =
      (c.style_edition.was_set &&
        decide (c.style_edition.value = StyleEdition.Edition2015))) ∧
    (c.is_default "ignore" =
      (c.ignore.was_set && decide (c.ignore.value = ([] : List String)))) ∧
    (∀ key, Config.is_valid_name key = false → c.is_default key = false) := by
  refine ⟨rfl, rfl, rfl, rfl, rfl, rfl, rfl, rfl, rfl, rfl, rfl, rfl, rfl, rfl, rfl, rfl,
    rfl, rfl, rfl, ?_⟩
  intro key h
  simp only [Config.is_valid_name, Bool.or_eq_false_iff, decide_eq_false_iff_not] at h
  obtain ⟨⟨⟨⟨⟨⟨⟨⟨⟨⟨⟨⟨⟨⟨⟨⟨⟨⟨h1, h2⟩, h3⟩, h4⟩, h5⟩, h6⟩, h7⟩, h8⟩, h9⟩, h10⟩,
    h11⟩, h12⟩, h13⟩, h14⟩, h15⟩, h16⟩, h17⟩, h18⟩, h19⟩ := h
  simp [Config.is_default, h1, h2, h3, h4, h5, h6, h7, h8, h9, h10, h11, h12, h13, h14,
    h15, h16, h17, h18, h19]

/-- Claim C5 counterexample: on a registry constructed for `Edition2024`,
explicitly overriding `style_edition` to `2024` — the compiled default for
the active edition — still makes `is_default` report `false`, because the
source compares against the `Edition2015` default. -/
theorem claim_C5_counterexample :
    ((Config.default_with_style_edition .Edition2024).override_value "style_edition" "2024").map
      (fun p => (p.1.is_default "style_edition", p.1.style_edition.was_set,
        decide (p.1.style_edition.value = default_style_edition .Edition2024))) =
      .ok (false, true, true) := by
  rfl

/-- Claim C5 witness: the unknown-key clause of the amended claim at a
concrete key. -/
theorem claim_C5_witness :
    (Config.default_with_style_edition .Edition2015).is_default "bogus_key" = false :=
  (claim_C5_amended _).2.2.2.2.2.2.2.2.2.2.2.2.2.2.2.2.2.2.2 "bogus_key" (by decide)

end RustfmtConfig
namespace RustfmtConfig

/-- Claim C8: for every dependent width option, the width-heuristics
derivation clamps an explicitly set value exceeding `max_width` down to
`max_width` and emits the warning naming that option; an explicitly set
value not exceeding `max_width` is kept; a never-set option receives the
mode-derived heuristic value. -/
theorem claim_C8 (c : Config) (h : WidthHeuristics) :
    ((c.fn_call_width.was_set = true → c.max_width.value < c.fn_call_width.value →
        (c.set_width_heuristics h).1.fn_call_width.value = c.max_width.value ∧
        width_clamp_warning "fn_call_width" ∈ (c.set_width_heuristics h).2) ∧
      (c.fn_call_width.was_set = true → ¬ c.max_width.value < c.fn_call_width.value →
        (c.set_width_heuristics h).1.fn_call_width.value = c.fn_call_width.value) ∧
      (c.fn_call_width.was_set = false →
        (c.set_width_heuristics h).1.fn_call_width.value = h.fn_call_width)) ∧
    ((c.attr_fn_like_width.was_set = true → c.max_width.value < c.attr_fn_like_width.value →
        (c.set_width_heuristics h).1.attr_fn_like_width.value = c.max_width.value ∧
        width_clamp_warning "attr_fn_like_width" ∈ (c.set_width_heuristics h).2) ∧
      (c.attr_fn_like_width.was_set = true → ¬ c.max_width.value < c.attr_fn_like_width.value →
        (c.set_width_heuristics h).1.attr_fn_like_width.value = c.attr_fn_like_width.value) ∧
      (c.attr_fn_like_width.was_set = false →
        (c.set_width_heuristics h).1.attr_fn_like_width.value = h.attr_fn_like_width)) ∧
    ((c.struct_lit_width.was_set = true → c.max_width.value < c.struct_lit_width.value →
        (c.set_width_heuristics h).1.struct_lit_width.value = c.max_width.value ∧
        width_clamp_warning "struct_lit_width" ∈ (c.set_width_heuristics h).2) ∧
      (c.struct_lit_width.was_set = true → ¬ c.max_width.value < c.struct_lit_width.value →
        (c.set_width_heuristics h).1.struct_lit_width.value = c.struct_lit_width.value) ∧
      (c.struct_lit_width.was_set = false →
        (c.set_width_heuristics h).1.struct_lit_width.value = h.struct_lit_width)) ∧
    ((c.struct_variant_width.was_set = true → c.max_width.value < c.struct_variant_width.value →
        (c.set_width_heuristics h).1.struct_variant_width.value = c.max_width.value ∧
        width_clamp_warning "struct_variant_width" ∈ (c.set_width_heuristics h).2) ∧
      (c.struct_variant_width.was_set = true →
        ¬ c.max_width.value < c.struct_variant_width.value →
        (c.set_width_heuristics h).1.struct_variant_width.value = c.struct_variant_width.value) ∧
      (c.struct_variant_width.was_set = false →
        (c.set_width_heuristics h).1.struct_variant_width.value = h.struct_variant_width)) ∧
    ((c.array_width.was_set = true → c.max_width.value < c.array_width.value →
        (c.set_width_heuristics h).1.array_width.value = c.max_width.value ∧
        width_clamp_warning "array_width" ∈ (c.set_width_heuristics h).2) ∧
      (c.array_width.was_set = true → ¬ c.max_width.value < c.array_width.value →
        (c.set_width_heuristics h).1.array_width.value = c.array_width.value) ∧
      (c.array_width.was_set = false →
        (c.set_width_heuristics h).1.array_width.value = h.array_width)) ∧
    ((c.chain_width.was_set = true → c.max_width.value < c.chain_width.value →
        (c.set_width_heuristics h).1.chain_width.value = c.max_width.value ∧
        width_clamp_warning "chain_width" ∈ (c.set_width_heuristics h).2) ∧
      (c.chain_width.was_set = true → ¬ c.max_width.value < c.chain_width.value →
        (c.set_width_heuristics h).1.chain_width.value = c.chain_width.value) ∧
      (c.chain_width.was_set = false →
        (c.set_width_heuristics h).1.chain_width.value = h.chain_width)) ∧
    ((c.single_line_if_else_max_width.was_set = true →
        c.max_width.value < c.single_line_if_else_max_width.value →
        (c.set_width_heuristics h).1.single_line_if_else_max_width.value = c.max_width.value ∧
        width_clamp_warning "single_line_if_else_max_width" ∈ (c.set_width_heuristics h).2) ∧
      (c.single_line_if_else_max_width.was_set = true →
        ¬ c.max_width.value < c.single_line_if_else_max_width.value →
        (c.set_width_heuristics h).1.single_line_if_else_max_width.value =
          c.single_line_if_else_max_width.value) ∧
      (c.single_line_if_else_max_width.was_set = false →
        (c.set_width_heuristics h).1.single_line_if_else_max_width.value =
          h.single_line_if_else_max_width)) ∧
    ((c.single_line_let_else_max_width.was_set = true →
        c.max_width.value < c.single_line_let_else_max_width.value →
        (c.set_width_heuristics h).1.single_line_let_else_max_width.value = c.max_width.value ∧
        width_clamp_warning "single_line_let_else_max_width" ∈ (c.set_width_heuristics h).2) ∧
      (c.single_line_let_else_max_width.was_set = true →
        ¬ c.max_width.value < c.single_line_let_else_max_width.value →
        (c.set_width_heuristics h).1.single_line_let_else_max_width.value =
          c.single_line_let_else_max_width.value) ∧
      (c.single_line_let_else_max_width.was_set = false →
        (c.set_width_heuristics h).1.single_line_let_else_max_width.value =
          h.single_line_let_else_max_width)) := by
  refine ⟨⟨?_, ?_, ?_⟩, ⟨?_, ?_, ?_⟩, ⟨?_, ?_, ?_⟩, ⟨?_, ?_, ?_⟩, ⟨?_, ?_, ?_⟩,
    ⟨?_, ?_, ?_⟩, ⟨?_, ?_, ?_⟩, ⟨?_, ?_, ?_⟩⟩ <;>
    intro h1 <;>
    first
      | (intro h2; simp [Config.set_width_heuristics, get_width_value, h1, h2])
      | simp [Config.set_width_heuristics, get_width_value, h1]

end RustfmtConfig
namespace RustfmtConfig

/-- Claim C8 witness: the clamp clause for `fn_call_width` explicitly set
to 200 with `max_width` 100. -/
theorem claim_C8_witness :
    ((({ Config.default_with_style_edition .Edition2015 with
        fn_call_width :=
          { value := 200, is_used := false, is_stable := false,
            was_set := true, was_set_cli := false } } : Config).set_width_heuristics
        (WidthHeuristics.scaled 100)).1.fn_call_width.value =
      ({ Config.default_with_style_edition .Edition2015 with
        fn_call_width :=
          { value := 200, is_used := false, is_stable := false,
            was_set := true, was_set_cli := false } } : Config).max_width.value) ∧
    width_clamp_warning "fn_call_width" ∈
      (({ Config.default_with_style_edition .Edition2015 with
        fn_call_width :=
          { value := 200, is_used := false, is_stable := false,
            was_set := true, was_set_cli := false } } : Config).set_width_heuristics
        (WidthHeuristics.scaled 100)).2 :=
  (claim_C8 _ _).1.1 rfl (by decide)

/-- Claim C7: on a non-nightly channel an unstable option
(`hide_parse_errors`) set through `override_value` is accepted
unconditionally — the definition of `override_value` contains no Stability
Oracle call — and the value is installed with `was_set` marked, while the
same assignment through `fill_from_parsed_config` is rejected with the
option-unstable warning and the slot remains exactly at its prior
default. -/
theorem claim_C7 :
    (∀ (se : StyleEdition) (v : Bool),
      ((Config.default_with_style_edition se).override_value "hide_parse_errors"
          (bool_to_str v)).map
        (fun p => (p.1.hide_parse_errors.value, p.1.hide_parse_errors.was_set)) =
        .ok (v, true)) ∧
    (∀ (se : StyleEdition) (v : Bool) (dir : String),
      ((Config.default_with_style_edition se).fill_from_parsed_config false
          { hide_parse_errors := some v } dir).1.hide_parse_errors =
        (Config.default_with_style_edition se).hide_parse_errors ∧
      option_unstable_warning "hide_parse_errors" v ∈
        ((Config.default_with_style_edition se).fill_from_parsed_config false
          { hide_parse_errors := some v } dir).2) := by
  constructor
  · intro se v
    cases se <;> cases v <;> rfl
  · intro se v dir
    cases se <;> cases v <;> exact ⟨rfl, List.Mem.head _⟩

end RustfmtConfig
namespace RustfmtConfig

theorem override_assign_isOk (c : Config) (key val : String) :
    (c.override_assign key val).isOk = Config.is_valid_key_val key val := by
  by_cases h1 : key = "max_width"
  · subst h1
    cases hv : usize_from_str val <;>
      simp [Config.override_assign, Config.is_valid_key_val, hv, Except.isOk, Except.toBool]
  by_cases h2 : key = "use_small_heuristics"
  · subst h2
    cases hv : heuristics_from_str val <;>
      simp [Config.override_assign, Config.is_valid_key_val, hv, Except.isOk, Except.toBool]
  by_cases h3 : key = "fn_call_width"
  · subst h3
    cases hv : usize_from_str val <;>
      simp [Config.override_assign, Config.is_valid_key_val, hv, Except.isOk, Except.toBool]
  by_cases h4 : key = "attr_fn_like_width"
  · subst h4
    cases hv : usize_from_str val <;>
      simp [Config.override_assign, Config.is_valid_key_val, hv, Except.isOk, Except.toBool]
  by_cases h5 : key = "struct_lit_width"
  · subst h5
    cases hv : usize_from_str val <;>
      simp [Config.override_assign, Config.is_valid_key_val, hv, Except.isOk, Except.toBool]
  by_cases h6 : key = "struct_variant_width"
  · subst h6
    cases hv : usize_from_str val <;>
      simp [Config.override_assign, Config.is_valid_key_val, hv, Except.isOk, Except.toBool]
  by_cases h7 : key = "array_width"
  · subst h7
    cases hv : usize_from_str val <;>
      simp [Config.override_assign, Config.is_valid_key_val, hv, Except.isOk, Except.toBool]
  by_cases h8 : key = "chain_width"
  · subst h8
    cases hv : usize_from_str val <;>
      simp [Config.override_assign, Config.is_valid_key_val, hv, Except.isOk, Except.toBool]
  by_cases h9 : key = "single_line_if_else_max_width"
  · subst h9
    cases hv : usize_from_str val <;>
      simp [Config.override_assign, Config.is_valid_key_val, hv, Except.isOk, Except.toBool]
  by_cases h10 : key = "single_line_let_else_max_width"
  · subst h10
    cases hv : usize_from_str val <;>
      simp [Config.override_assign, Config.is_valid_key_val, hv, Except.isOk, Except.toBool]
  by_cases h11 : key = "merge_imports"
  · subst h11
    cases hv : bool_from_str val <;>
      simp [Config.override_assign, Config.is_valid_key_val, hv, Except.isOk, Except.toBool]
  by_cases h12 : key = "imports_granularity"
  · subst h12
    cases hv : import_granularity_from_str val <;>
      simp [Config.override_assign, Config.is_valid_key_val, hv, Except.isOk, Except.toBool]
  by_cases h13 : key = "fn_args_layout"
  · subst h13
    cases hv : density_from_str val <;>
      simp [Config.override_assign, Config.is_valid_key_val, hv, Except.isOk, Except.toBool]
  by_cases h14 : key = "fn_params_layout"
  · subst h14
    cases hv : density_from_str val <;>
      simp [Config.override_assign, Config.is_valid_key_val, hv, Except.isOk, Except.toBool]
  by_cases h15 : key = "hide_parse_errors"
  · subst h15
    cases hv : bool_from_str val <;>
      simp [Config.override_assign, Config.is_valid_key_val, hv, Except.isOk, Except.toBool]
  by_cases h16 : key = "show_parse_errors"
  · subst h16
    cases hv : bool_from_str val <;>
      simp [Config.override_assign, Config.is_valid_key_val, hv, Except.isOk, Except.toBool]
  by_cases h17 : key = "version"
  · subst h17
    cases hv : version_from_str val <;>
      simp [Config.override_assign, Config.is_valid_key_val, hv, Except.isOk, Except.toBool]
  by_cases h18 : key = "style_edition"
  · subst h18
    cases hv : style_edition_from_str val <;>
      simp [Config.override_assign, Config.is_valid_key_val, hv, Except.isOk, Except.toBool]
  by_cases h19 : key = "ignore"
  · subst h19
    cases hv : ignore_list_from_str val <;>
      simp [Config.override_assign, Config.is_valid_key_val, hv, Except.isOk, Except.toBool]
  simp [Config.override_assign, Config.is_valid_key_val, Except.isOk, Except.toBool, h1, h2, h3, h4, h5, h6, h7, h8, h9, h10, h11, h12, h13, h14, h15, h16, h17, h18, h19]

end RustfmtConfig
namespace RustfmtConfig

theorem override_value_isOk (c : Config) (key val : String) :
    (c.override_value key val).isOk = (c.override_assign key val).isOk := by
  unfold Config.override_value
  cases h : c.override_assign key val <;> simp [h, Except.isOk, Except.toBool]

theorem set_heuristics_max_width_slot (c : Config) :
    (c.set_heuristics).1.max_width = c.max_width := by
  cases hm : c.use_small_heuristics.value <;>
    simp [Config.set_heuristics, Config.set_width_heuristics, hm]

/-- Claim C6: `override_value` is fatal exactly when the key is unknown or
the text does not parse (acceptance coincides with `is_valid_key_val`);
the unknown-key error names the key, and the parse error names the key,
the raw text and the expected type; the failure cases produce no updated
registry (the `Except` carries only the message, leaving the prior value
untouched), and a valid assignment installs the parsed value and marks
`was_set`. -/
theorem claim_C6 :
    (∀ (c : Config) (key val : String),
      (c.override_value key val).isOk = Config.is_valid_key_val key val) ∧
    (∀ (c : Config) (key val : String), Config.is_valid_name key = false →
      c.override_value key val = .error (override_unknown_key_error key)) ∧
    (∀ (c : Config) (val : String), usize_from_str val = none →
      c.override_value "max_width" val =
        .error (override_parse_error "max_width" val "usize")) ∧
    (∀ (c : Config) (val : String) (n : Nat), usize_from_str val = some n →
      (c.override_value "max_width" val).map
        (fun p => (p.1.max_width.value, p.1.max_width.was_set)) = .ok (n, true)) := by
  refine ⟨?_, ?_, ?_, ?_⟩
  · intro c key val
    rw [override_value_isOk, override_assign_isOk]
  · intro c key val h
    simp only [Config.is_valid_name, Bool.or_eq_false_iff, decide_eq_false_iff_not] at h
    obtain ⟨⟨⟨⟨⟨⟨⟨⟨⟨⟨⟨⟨⟨⟨⟨⟨⟨⟨h1, h2⟩, h3⟩, h4⟩, h5⟩, h6⟩, h7⟩, h8⟩, h9⟩, h10⟩,
      h11⟩, h12⟩, h13⟩, h14⟩, h15⟩, h16⟩, h17⟩, h18⟩, h19⟩ := h
    simp [Config.override_value, Config.override_assign, h1, h2, h3, h4, h5, h6, h7, h8,
      h9, h10, h11, h12, h13, h14, h15, h16, h17, h18, h19]
  · intro c val hv
    simp [Config.override_value, Config.override_assign, hv]
  · intro c val n hv
    simp [Config.override_value, Config.override_assign, hv, Config.override_recompute,
      Except.map, set_heuristics_max_width_slot]

/-- Claim C6 witness: the error and success clauses at concrete inputs. -/
theorem claim_C6_witness :
    ((Config.default_with_style_edition .Edition2015).override_value "max_width"
      "not-a-number" = .error (override_parse_error "max_width" "not-a-number" "usize")) ∧
    ((Config.default_with_style_edition .Edition2015).override_value "bogus_key" "1" =
      .error (override_unknown_key_error "bogus_key")) ∧
    (((Config.default_with_style_edition .Edition2015).override_value "max_width" "120").map
      (fun p => (p.1.max_width.value, p.1.max_width.was_set)) = .ok (120, true)) :=
  ⟨claim_C6.2.2.1 _ "not-a-number" (by decide),
   claim_C6.2.1 _ "bogus_key" "1" (by decide),
   claim_C6.2.2.2 _ "120" 120 (by decide)⟩

end RustfmtConfig
namespace RustfmtConfig

theorem set_heuristics_use_small_heuristics_slot (c : Config) :
    (c.set_heuristics).1.use_small_heuristics = c.use_small_heuristics := by
  cases hm : c.use_small_heuristics.value <;>
    simp [Config.set_heuristics, Config.set_width_heuristics, hm]

theorem set_heuristics_merge_imports_slot (c : Config) :
    (c.set_heuristics).1.merge_imports = c.merge_imports := by
  cases hm : c.use_small_heuristics.value <;>
    simp [Config.set_heuristics, Config.set_width_heuristics, hm]

theorem set_heuristics_imports_granularity_slot (c : Config) :
    (c.set_heuristics).1.imports_granularity = c.imports_granularity := by
  cases hm : c.use_small_heuristics.value <;>
    simp [Config.set_heuristics, Config.set_width_heuristics, hm]

theorem set_heuristics_fn_args_layout_slot (c : Config) :
    (c.set_heuristics).1.fn_args_layout = c.fn_args_layout := by
  cases hm : c.use_small_heuristics.value <;>
    simp [Config.set_heuristics, Config.set_width_heuristics, hm]

theorem set_heuristics_fn_params_layout_slot (c : Config) :
    (c.set_heuristics).1.fn_params_layout = c.fn_params_layout := by
  cases hm : c.use_small_heuristics.value <;>
    simp [Config.set_heuristics, Config.set_width_heuristics, hm]

theorem set_heuristics_hide_parse_errors_slot (c : Config) :
    (c.set_heuristics).1.hide_parse_errors = c.hide_parse_errors := by
  cases hm : c.use_small_heuristics.value <;>
    simp [Config.set_heuristics, Config.set_width_heuristics, hm]

theorem set_heuristics_show_parse_errors_slot (c : Config) :
    (c.set_heuristics).1.show_parse_errors = c.show_parse_errors := by
  cases hm : c.use_small_heuristics.value <;>
    simp [Config.set_heuristics, Config.set_width_heuristics, hm]

theorem set_heuristics_version_slot (c : Config) :
    (c.set_heuristics).1.version = c.version := by
  cases hm : c.use_small_heuristics.value <;>
    simp [Config.set_heuristics, Config.set_width_heuristics, hm]

theorem set_heuristics_style_edition_slot (c : Config) :
    (c.set_heuristics).1.style_edition = c.style_edition := by
  cases hm : c.use_small_heuristics.value <;>
    simp [Config.set_heuristics, Config.set_width_heuristics, hm]

theorem set_heuristics_ignore_slot (c : Config) :
    (c.set_heuristics).1.ignore = c.ignore := by
  cases hm : c.use_small_heuristics.value <;>
    simp [Config.set_heuristics, Config.set_width_heuristics, hm]

theorem set_merge_imports_fn_args_layout_slot (c : Config) :
    (c.set_merge_imports).1.fn_args_layout = c.fn_args_layout := by
  unfold Config.set_merge_imports
  cases h1 : c.merge_imports.was_set <;> cases h2 : c.imports_granularity.was_set <;>
    simp [h1, h2]

theorem set_merge_imports_fn_params_layout_slot (c : Config) :
    (c.set_merge_imports).1.fn_params_layout = c.fn_params_layout := by
  unfold Config.set_merge_imports
  cases h1 : c.merge_imports.was_set <;> cases h2 : c.imports_granularity.was_set <;>
    simp [h1, h2]

theorem set_merge_imports_hide_parse_errors_slot (c : Config) :
    (c.set_merge_imports).1.hide_parse_errors = c.hide_parse_errors := by
  unfold Config.set_merge_imports
  cases h1 : c.merge_imports.was_set <;> cases h2 : c.imports_granularity.was_set <;>
    simp [h1, h2]

theorem set_merge_imports_show_parse_errors_slot (c : Config) :
    (c.set_merge_imports).1.show_parse_errors = c.show_parse_errors := by
  unfold Config.set_merge_imports
  cases h1 : c.merge_imports.was_set <;> cases h2 : c.imports_granularity.was_set <;>
    simp [h1, h2]

theorem set_merge_imports_version_slot (c : Config) :
    (c.set_merge_imports).1.version = c.version := by
  unfold Config.set_merge_imports
  cases h1 : c.merge_imports.was_set <;> cases h2 : c.imports_granularity.was_set <;>
    simp [h1, h2]

theorem set_merge_imports_style_edition_slot (c : Config) :
    (c.set_merge_imports).1.style_edition = c.style_edition := by
  unfold Config.set_merge_imports
  cases h1 : c.merge_imports.was_set <;> cases h2 : c.imports_granularity.was_set <;>
    simp [h1, h2]

theorem set_fn_args_layout_imports_granularity_slot (c : Config) :
    (c.set_fn_args_layout).1.imports_granularity = c.imports_granularity := by
  unfold Config.set_fn_args_layout
  cases h1 : c.fn_args_layout.was_set <;> cases h2 : c.fn_params_layout.was_set <;>
    simp [h1, h2]

theorem set_fn_args_layout_hide_parse_errors_slot (c : Config) :
    (c.set_fn_args_layout).1.hide_parse_errors = c.hide_parse_errors := by
  unfold Config.set_fn_args_layout
  cases h1 : c.fn_args_layout.was_set <;> cases h2 : c.fn_params_layout.was_set <;>
    simp [h1, h2]

theorem set_fn_args_layout_show_parse_errors_slot (c : Config) :
    (c.set_fn_args_layout).1.show_parse_errors = c.show_parse_errors := by
  unfold Config.set_fn_args_layout
  cases h1 : c.fn_args_layout.was_set <;> cases h2 : c.fn_params_layout.was_set <;>
    simp [h1, h2]

theorem set_fn_args_layout_version_slot (c : Config) :
    (c.set_fn_args_layout).1.version = c.version := by
  unfold Config.set_fn_args_layout
  cases h1 : c.fn_args_layout.was_set <;> cases h2 : c.fn_params_layout.was_set <;>
    simp [h1, h2]

theorem set_fn_args_layout_style_edition_slot (c : Config) :
    (c.set_fn_args_layout).1.style_edition = c.style_edition := by
  unfold Config.set_fn_args_layout
  cases h1 : c.fn_args_layout.was_set <;> cases h2 : c.fn_params_layout.was_set <;>
    simp [h1, h2]

theorem set_hide_parse_errors_imports_granularity_slot (c : Config) :
    (c.set_hide_parse_errors).1.imports_granularity = c.imports_granularity := by
  unfold Config.set_hide_parse_errors
  cases h1 : c.hide_parse_errors.was_set <;> cases h2 : c.show_parse_errors.was_set <;>
    simp [h1, h2]

theorem set_hide_parse_errors_fn_params_layout_slot (c : Config) :
    (c.set_hide_parse_errors).1.fn_params_layout = c.fn_params_layout := by
  unfold Config.set_hide_parse_errors
  cases h1 : c.hide_parse_errors.was_set <;> cases h2 : c.show_parse_errors.was_set <;>
    simp [h1, h2]

theorem set_hide_parse_errors_version_slot (c : Config) :
    (c.set_hide_parse_errors).1.version = c.version := by
  unfold Config.set_hide_parse_errors
  cases h1 : c.hide_parse_errors.was_set <;> cases h2 : c.show_parse_errors.was_set <;>
    simp [h1, h2]

theorem set_hide_parse_errors_style_edition_slot (c : Config) :
    (c.set_hide_parse_errors).1.style_edition = c.style_edition := by
  unfold Config.set_hide_parse_errors
  cases h1 : c.hide_parse_errors.was_set <;> cases h2 : c.show_parse_errors.was_set <;>
    simp [h1, h2]

theorem set_version_fst (c : Config) : (c.set_version).1 = c := by
  unfold Config.set_version
  cases h : c.version.was_set <;> simp [h]

end RustfmtConfig
namespace RustfmtConfig

/-- Claim C2 (amended): every mutation path reruns the alias
reconciliation, but observable equivalence of the replacement slot holds
only between file merge and `override_value` (shown for all four legacy
options); the programmatic and CLI setters do not mark `was_set`, so when
the legacy slot had not previously been marked `was_set` they leave the
replacement slot unchanged. -/
theorem claim_C2_amended :
    (∀ (c : Config) (b : Bool) (dir : String),
      (c.override_value "merge_imports" (bool_to_str b)).map
        (fun p => p.1.imports_granularity.value) =
        .ok ((c.fill_from_parsed_config true { merge_imports := some b }
          dir).1.imports_granularity.value)) ∧
    (∀ (c : Config) (v : Density) (dir : String),
      (c.override_value "fn_args_layout" (density_to_str v)).map
        (fun p => p.1.fn_params_layout.value) =
        .ok ((c.fill_from_parsed_config true { fn_args_layout := some v }
          dir).1.fn_params_layout.value)) ∧
    (∀ (c : Config) (b : Bool) (dir : String),
      (c.override_value "hide_parse_errors" (bool_to_str b)).map
        (fun p => p.1.show_parse_errors.value) =
        .ok ((c.fill_from_parsed_config true { hide_parse_errors := some b }
          dir).1.show_parse_errors.value)) ∧
    (∀ (c : Config) (v : Version) (dir : String),
      (c.override_value "version" (version_to_str v)).map
        (fun p => p.1.style_edition.value) =
        .ok ((c.fill_from_parsed_config true { version := some v }
          dir).1.style_edition.value)) ∧
    (∀ (c : Config) (b : Bool), c.merge_imports.was_set = false →
      (ConfigSetter.merge_imports c b).1.imports_granularity.value =
        c.imports_granularity.value ∧
      (CliConfigSetter.merge_imports c b).1.imports_granularity.value =
        c.imports_granularity.value) := by
  refine ⟨?_, ?_, ?_, ?_, ?_⟩
  · intro c b dir
    cases b <;> cases hg : c.imports_granularity.was_set <;>
      simp [Config.override_value, Config.override_assign, Config.override_recompute,
        Config.fill_from_parsed_config, merge_slot, is_stable_option_and_value,
        bool_to_str, bool_from_str, Except.map, Config.set_ignore,
        Config.set_merge_imports, set_version_fst,
        set_heuristics_merge_imports_slot, set_heuristics_imports_granularity_slot,
        set_fn_args_layout_imports_granularity_slot,
        set_hide_parse_errors_imports_granularity_slot, hg]
  · intro c v dir
    cases v <;> cases hf : c.fn_params_layout.was_set <;>
      simp [Config.override_value, Config.override_assign, Config.override_recompute,
        Config.fill_from_parsed_config, merge_slot, is_stable_option_and_value,
        density_to_str, density_from_str, Except.map, Config.set_ignore,
        Config.set_fn_args_layout, set_version_fst,
        set_heuristics_fn_args_layout_slot, set_heuristics_fn_params_layout_slot,
        set_merge_imports_fn_args_layout_slot, set_merge_imports_fn_params_layout_slot,
        set_hide_parse_errors_fn_params_layout_slot, hf]
  · intro c b dir
    cases b <;> cases hs : c.show_parse_errors.was_set <;>
      simp [Config.override_value, Config.override_assign, Config.override_recompute,
        Config.fill_from_parsed_config, merge_slot, is_stable_option_and_value,
        bool_to_str, bool_from_str, Except.map, Config.set_ignore,
        Config.set_hide_parse_errors, set_version_fst,
        set_heuristics_hide_parse_errors_slot, set_heuristics_show_parse_errors_slot,
        set_merge_imports_hide_parse_errors_slot, set_merge_imports_show_parse_errors_slot,
        set_fn_args_layout_hide_parse_errors_slot, set_fn_args_layout_show_parse_errors_slot,
        hs]
  · intro c v dir
    cases v <;>
      simp [Config.override_value, Config.override_assign, Config.override_recompute,
        Config.fill_from_parsed_config, merge_slot, is_stable_option_and_value,
        version_to_str, version_from_str, Except.map, Config.set_ignore,
        set_version_fst, set_heuristics_version_slot, set_heuristics_style_edition_slot,
        set_merge_imports_version_slot, set_merge_imports_style_edition_slot,
        set_fn_args_layout_version_slot, set_fn_args_layout_style_edition_slot,
        set_hide_parse_errors_version_slot, set_hide_parse_errors_style_edition_slot]
  · intro c b h
    constructor
    · simp [ConfigSetter.merge_imports, Config.set_merge_imports, h]
    · simp [CliConfigSetter.merge_imports, Config.set_merge_imports, h]

/-- Claim C2 counterexample: assigning `merge_imports = true` through
`override_value` installs `Crate` into `imports_granularity`, while the
same assignment through the `set()` API leaves it at `Preserve` — the
mutation channels are not observably equivalent. -/
theorem claim_C2_counterexample :
    ((Config.default_with_style_edition .Edition2015).override_value "merge_imports"
      "true").map (fun p => p.1.imports_granularity.value) =
        .ok ImportGranularity.Crate ∧
    (ConfigSetter.merge_imports (Config.default_with_style_edition .Edition2015)
      true).1.imports_granularity.value = ImportGranularity.Preserve ∧
    ImportGranularity.Crate ≠ ImportGranularity.Preserve :=
  ⟨rfl, rfl, by decide⟩

/-- Claim C2 witness: the setter clause of the amended claim on a default
registry. -/
theorem claim_C2_witness :
    (ConfigSetter.merge_imports (Config.default_with_style_edition .Edition2015)
      true).1.imports_granularity.value =
      (Config.default_with_style_edition .Edition2015).imports_granularity.value ∧
    (CliConfigSetter.merge_imports (Config.default_with_style_edition .Edition2015)
      true).1.imports_granularity.value =
      (Config.default_with_style_edition .Edition2015).imports_granularity.value :=
  claim_C2_amended.2.2.2.2 _ true rfl

end RustfmtConfig
namespace RustfmtConfig

theorem flags_le_refl (c : Config) : c.flags_le c :=
  ⟨⟨le_refl _, le_refl _⟩, ⟨le_refl _, le_refl _⟩, ⟨le_refl _, le_refl _⟩, ⟨le_refl _, le_refl _⟩, ⟨le_refl _, le_refl _⟩, ⟨le_refl _, le_refl _⟩, ⟨le_refl _, le_refl _⟩, ⟨le_refl _, le_refl _⟩, ⟨le_refl _, le_refl _⟩, ⟨le_refl _, le_refl _⟩, ⟨le_refl _, le_refl _⟩, ⟨le_refl _, le_refl _⟩, ⟨le_refl _, le_refl _⟩, ⟨le_refl _, le_refl _⟩, ⟨le_refl _, le_refl _⟩, ⟨le_refl _, le_refl _⟩, ⟨le_refl _, le_refl _⟩, ⟨le_refl _, le_refl _⟩, ⟨le_refl _, le_refl _⟩⟩

theorem flags_le_trans (a b c : Config) (h1 : a.flags_le b) (h2 : b.flags_le c) :
    a.flags_le c := by
  obtain ⟨p1, p2, p3, p4, p5, p6, p7, p8, p9, p10, p11, p12, p13, p14, p15, p16, p17, p18, p19⟩ := h1
  obtain ⟨q1, q2, q3, q4, q5, q6, q7, q8, q9, q10, q11, q12, q13, q14, q15, q16, q17, q18, q19⟩ := h2
  exact ⟨⟨le_trans p1.1 q1.1, le_trans p1.2 q1.2⟩, ⟨le_trans p2.1 q2.1, le_trans p2.2 q2.2⟩, ⟨le_trans p3.1 q3.1, le_trans p3.2 q3.2⟩, ⟨le_trans p4.1 q4.1, le_trans p4.2 q4.2⟩, ⟨le_trans p5.1 q5.1, le_trans p5.2 q5.2⟩, ⟨le_trans p6.1 q6.1, le_trans p6.2 q6.2⟩, ⟨le_trans p7.1 q7.1, le_trans p7.2 q7.2⟩, ⟨le_trans p8.1 q8.1, le_trans p8.2 q8.2⟩, ⟨le_trans p9.1 q9.1, le_trans p9.2 q9.2⟩, ⟨le_trans p10.1 q10.1, le_trans p10.2 q10.2⟩, ⟨le_trans p11.1 q11.1, le_trans p11.2 q11.2⟩, ⟨le_trans p12.1 q12.1, le_trans p12.2 q12.2⟩, ⟨le_trans p13.1 q13.1, le_trans p13.2 q13.2⟩, ⟨le_trans p14.1 q14.1, le_trans p14.2 q14.2⟩, ⟨le_trans p15.1 q15.1, le_trans p15.2 q15.2⟩, ⟨le_trans p16.1 q16.1, le_trans p16.2 q16.2⟩, ⟨le_trans p17.1 q17.1, le_trans p17.2 q17.2⟩, ⟨le_trans p18.1 q18.1, le_trans p18.2 q18.2⟩, ⟨le_trans p19.1 q19.1, le_trans p19.2 q19.2⟩⟩

theorem mono_merge_slot {T : Type} [ConfigType T] (nightly : Bool) (name : String)
    (slot : ConfigOption T) (pv : Option T) :
    slot_flags_le slot (merge_slot nightly name slot pv).1 := by
  cases pv with
  | none => simp [merge_slot, slot_flags_le]
  | some v =>
    simp only [merge_slot]
    split <;> simp [slot_flags_le]

theorem mono_set_width_heuristics (c : Config) (h : WidthHeuristics) :
    c.flags_le (c.set_width_heuristics h).1 := by
  simp [Config.set_width_heuristics, Config.flags_le, slot_flags_le]

theorem mono_set_heuristics (c : Config) : c.flags_le (c.set_heuristics).1 := by
  cases hm : c.use_small_heuristics.value <;>
    simp only [Config.set_heuristics, hm] <;> exact mono_set_width_heuristics _ _

theorem mono_set_ignore (c : Config) (dir : String) : c.flags_le (c.set_ignore dir) := by
  simp [Config.set_ignore, Config.flags_le, slot_flags_le]

theorem mono_set_merge_imports (c : Config) : c.flags_le (c.set_merge_imports).1 := by
  unfold Config.set_merge_imports
  cases h1 : c.merge_imports.was_set <;> cases h2 : c.imports_granularity.was_set <;>
    simp [h1, h2, Config.flags_le, slot_flags_le]

theorem mono_set_fn_args_layout (c : Config) : c.flags_le (c.set_fn_args_layout).1 := by
  unfold Config.set_fn_args_layout
  cases h1 : c.fn_args_layout.was_set <;> cases h2 : c.fn_params_layout.was_set <;>
    simp [h1, h2, Config.flags_le, slot_flags_le]

theorem mono_set_hide_parse_errors (c : Config) : c.flags_le (c.set_hide_parse_errors).1 := by
  unfold Config.set_hide_parse_errors
  cases h1 : c.hide_parse_errors.was_set <;> cases h2 : c.show_parse_errors.was_set <;>
    simp [h1, h2, Config.flags_le, slot_flags_le]

theorem mono_set_version (c : Config) : c.flags_le (c.set_version).1 := by
  rw [set_version_fst]
  exact flags_le_refl c

theorem mono_override_recompute (c : Config) (key : String) :
    c.flags_le (c.override_recompute key).1 := by
  unfold Config.override_recompute
  split_ifs <;>
    first
      | exact mono_set_heuristics _
      | exact mono_set_merge_imports _
      | exact mono_set_fn_args_layout _
      | exact mono_set_hide_parse_errors _
      | exact mono_set_version _
      | exact flags_le_refl _

theorem mono_override_assign (c : Config) (key val : String) (c1 : Config)
    (h : c.override_assign key val = .ok c1) : c.flags_le c1 := by
  by_cases h1 : key = "max_width"
  · subst h1
    cases hv : usize_from_str val <;> simp [Config.override_assign, hv] at h
    subst h
    simp [Config.flags_le, slot_flags_le]
  by_cases h2 : key = "use_small_heuristics"
  · subst h2
    cases hv : heuristics_from_str val <;> simp [Config.override_assign, hv] at h
    subst h
    simp [Config.flags_le, slot_flags_le]
  by_cases h3 : key = "fn_call_width"
  · subst h3
    cases hv : usize_from_str val <;> simp [Config.override_assign, hv] at h
    subst h
    simp [Config.flags_le, slot_flags_le]
  by_cases h4 : key = "attr_fn_like_width"
  · subst h4
    cases hv : usize_from_str val <;> simp [Config.override_assign, hv] at h
    subst h
    simp [Config.flags_le, slot_flags_le]
  by_cases h5 : key = "struct_lit_width"
  · subst h5
    cases hv : usize_from_str val <;> simp [Config.override_assign, hv] at h
    subst h
    simp [Config.flags_le, slot_flags_le]
  by_cases h6 : key = "struct_variant_width"
  · subst h6
    cases hv : usize_from_str val <;> simp [Config.override_assign, hv] at h
    subst h
    simp [Config.flags_le, slot_flags_le]
  by_cases h7 : key = "array_width"
  · subst h7
    cases hv : usize_from_str val <;> simp [Config.override_assign, hv] at h
    subst h
    simp [Config.flags_le, slot_flags_le]
  by_cases h8 : key = "chain_width"
  · subst h8
    cases hv : usize_from_str val <;> simp [Config.override_assign, hv] at h
    subst h
    simp [Config.flags_le, slot_flags_le]
  by_cases h9 : key = "single_line_if_else_max_width"
  · subst h9
    cases hv : usize_from_str val <;> simp [Config.override_assign, hv] at h
    subst h
    simp [Config.flags_le, slot_flags_le]
  by_cases h10 : key = "single_line_let_else_max_width"
  · subst h10
    cases hv : usize_from_str val <;> simp [Config.override_assign, hv] at h
    subst h
    simp [Config.flags_le, slot_flags_le]
  by_cases h11 : key = "merge_imports"
  · subst h11
    cases hv : bool_from_str val <;> simp [Config.override_assign, hv] at h
    subst h
    simp [Config.flags_le, slot_flags_le]
  by_cases h12 : key = "imports_granularity"
  · subst h12
    cases hv : import_granularity_from_str val <;> simp [Config.override_assign, hv] at h
    subst h
    simp [Config.flags_le, slot_flags_le]
  by_cases h13 : key = "fn_args_layout"
  · subst h13
    cases hv : density_from_str val <;> simp [Config.override_assign, hv] at h
    subst h
    simp [Config.flags_le, slot_flags_le]
  by_cases h14 : key = "fn_params_layout"
  · subst h14
    cases hv : density_from_str val <;> simp [Config.override_assign, hv] at h
    subst h
    simp [Config.flags_le, slot_flags_le]
  by_cases h15 : key = "hide_parse_errors"
  · subst h15
    cases hv : bool_from_str val <;> simp [Config.override_assign, hv] at h
    subst h
    simp [Config.flags_le, slot_flags_le]
  by_cases h16 : key = "show_parse_errors"
  · subst h16
    cases hv : bool_from_str val <;> simp [Config.override_assign, hv] at h
    subst h
    simp [Config.flags_le, slot_flags_le]
  by_cases h17 : key = "version"
  · subst h17
    cases hv : version_from_str val <;> simp [Config.override_assign, hv] at h
    subst h
    simp [Config.flags_le, slot_flags_le]
  by_cases h18 : key = "style_edition"
  · subst h18
    cases hv : style_edition_from_str val <;> simp [Config.override_assign, hv] at h
    subst h
    simp [Config.flags_le, slot_flags_le]
  by_cases h19 : key = "ignore"
  · subst h19
    cases hv : ignore_list_from_str val <;> simp [Config.override_assign, hv] at h
    subst h
    simp [Config.flags_le, slot_flags_le]
  simp [Config.override_assign, h1, h2, h3, h4, h5, h6, h7, h8, h9, h10, h11, h12, h13, h14, h15, h16, h17, h18, h19] at h

theorem mono_override_value (c : Config) (key val : String) :
    match c.override_value key val with
    | .ok p => c.flags_le p.1
    | .error _ => True := by
  unfold Config.override_value
  cases ha : c.override_assign key val with
  | error e => simp
  | ok c1 =>
    simp only []
    exact flags_le_trans _ _ _ (mono_override_assign c key val c1 ha)
      (mono_override_recompute c1 key)

end RustfmtConfig
namespace RustfmtConfig

theorem mono_merge_all (c : Config) (nightly : Bool) (parsed : PartialConfig) :
    c.flags_le
      { c with
          max_width := (merge_slot nightly "max_width" c.max_width parsed.max_width).1,
          use_small_heuristics := (merge_slot nightly "use_small_heuristics" c.use_small_heuristics parsed.use_small_heuristics).1,
          fn_call_width := (merge_slot nightly "fn_call_width" c.fn_call_width parsed.fn_call_width).1,
          attr_fn_like_width := (merge_slot nightly "attr_fn_like_width" c.attr_fn_like_width parsed.attr_fn_like_width).1,
          struct_lit_width := (merge_slot nightly "struct_lit_width" c.struct_lit_width parsed.struct_lit_width).1,
          struct_variant_width := (merge_slot nightly "struct_variant_width" c.struct_variant_width parsed.struct_variant_width).1,
          array_width := (merge_slot nightly "array_width" c.array_width parsed.array_width).1,
          chain_width := (merge_slot nightly "chain_width" c.chain_width parsed.chain_width).1,
          single_line_if_else_max_width := (merge_slot nightly "single_line_if_else_max_width" c.single_line_if_else_max_width parsed.single_line_if_else_max_width).1,
          single_line_let_else_max_width := (merge_slot nightly "single_line_let_else_max_width" c.single_line_let_else_max_width parsed.single_line_let_else_max_width).1,
          merge_imports := (merge_slot nightly "merge_imports" c.merge_imports parsed.merge_imports).1,
          imports_granularity := (merge_slot nightly "imports_granularity" c.imports_granularity parsed.imports_granularity).1,
          fn_args_layout := (merge_slot nightly "fn_args_layout" c.fn_args_layout parsed.fn_args_layout).1,
          fn_params_layout := (merge_slot nightly "fn_params_layout" c.fn_params_layout parsed.fn_params_layout).1,
          hide_parse_errors := (merge_slot nightly "hide_parse_errors" c.hide_parse_errors parsed.hide_parse_errors).1,
          show_parse_errors := (merge_slot nightly "show_parse_errors" c.show_parse_errors parsed.show_parse_errors).1,
          version := (merge_slot nightly "version" c.version parsed.version).1,
          style_edition := (merge_slot nightly "style_edition" c.style_edition parsed.style_edition).1,
          ignore := (merge_slot nightly "ignore" c.ignore parsed.ignore).1
      } :=
  ⟨mono_merge_slot _ _ _ _, mono_merge_slot _ _ _ _, mono_merge_slot _ _ _ _, mono_merge_slot _ _ _ _, mono_merge_slot _ _ _ _, mono_merge_slot _ _ _ _, mono_merge_slot _ _ _ _, mono_merge_slot _ _ _ _, mono_merge_slot _ _ _ _, mono_merge_slot _ _ _ _, mono_merge_slot _ _ _ _, mono_merge_slot _ _ _ _, mono_merge_slot _ _ _ _, mono_merge_slot _ _ _ _, mono_merge_slot _ _ _ _, mono_merge_slot _ _ _ _, mono_merge_slot _ _ _ _, mono_merge_slot _ _ _ _, mono_merge_slot _ _ _ _⟩

theorem mono_fill (c : Config) (nightly : Bool) (parsed : PartialConfig) (dir : String) :
    c.flags_le (c.fill_from_parsed_config nightly parsed dir).1 := by
  simp only [Config.fill_from_parsed_config]
  exact flags_le_trans _ _ _ (mono_merge_all c nightly parsed)
    (flags_le_trans _ _ _ (mono_set_heuristics _)
      (flags_le_trans _ _ _ (mono_set_ignore _ dir)
        (flags_le_trans _ _ _ (mono_set_merge_imports _)
          (flags_le_trans _ _ _ (mono_set_fn_args_layout _)
            (flags_le_trans _ _ _ (mono_set_hide_parse_errors _)
              (mono_set_version _))))))

end RustfmtConfig
namespace RustfmtConfig

/-- Claim C9: for every option slot, the `was_set` and `was_set_cli` flags
are monotonic across every defined operation — the overlay merge, every
programmatic setter, every CLI setter, the string override, and every
recomputation — no operation ever resets either flag. -/
theorem claim_C9 :
    (∀ (c : Config) (nightly : Bool) (parsed : PartialConfig) (dir : String),
      c.flags_le (c.fill_from_parsed_config nightly parsed dir).1) ∧
    (∀ (c : Config) (v : Nat), c.flags_le (ConfigSetter.max_width c v).1) ∧
    (∀ (c : Config) (v : Heuristics), c.flags_le (ConfigSetter.use_small_heuristics c v).1) ∧
    (∀ (c : Config) (v : Nat), c.flags_le (ConfigSetter.fn_call_width c v).1) ∧
    (∀ (c : Config) (v : Nat), c.flags_le (ConfigSetter.attr_fn_like_width c v).1) ∧
    (∀ (c : Config) (v : Nat), c.flags_le (ConfigSetter.struct_lit_width c v).1) ∧
    (∀ (c : Config) (v : Nat), c.flags_le (ConfigSetter.struct_variant_width c v).1) ∧
    (∀ (c : Config) (v : Nat), c.flags_le (ConfigSetter.array_width c v).1) ∧
    (∀ (c : Config) (v : Nat), c.flags_le (ConfigSetter.chain_width c v).1) ∧
    (∀ (c : Config) (v : Nat), c.flags_le (ConfigSetter.single_line_if_else_max_width c v).1) ∧
    (∀ (c : Config) (v : Nat), c.flags_le (ConfigSetter.single_line_let_else_max_width c v).1) ∧
    (∀ (c : Config) (v : Bool), c.flags_le (ConfigSetter.merge_imports c v).1) ∧
    (∀ (c : Config) (v : ImportGranularity), c.flags_le (ConfigSetter.imports_granularity c v).1) ∧
    (∀ (c : Config) (v : Density), c.flags_le (ConfigSetter.fn_args_layout c v).1) ∧
    (∀ (c : Config) (v : Density), c.flags_le (ConfigSetter.fn_params_layout c v).1) ∧
    (∀ (c : Config) (v : Bool), c.flags_le (ConfigSetter.hide_parse_errors c v).1) ∧
    (∀ (c : Config) (v : Bool), c.flags_le (ConfigSetter.show_parse_errors c v).1) ∧
    (∀ (c : Config) (v : Version), c.flags_le (ConfigSetter.version c v).1) ∧
    (∀ (c : Config) (v : StyleEdition), c.flags_le (ConfigSetter.style_edition c v).1) ∧
    (∀ (c : Config) (v : IgnoreList), c.flags_le (ConfigSetter.ignore c v).1) ∧
    (∀ (c : Config) (v : Nat), c.flags_le (CliConfigSetter.max_width c v).1) ∧
    (∀ (c : Config) (v : Heuristics), c.flags_le (CliConfigSetter.use_small_heuristics c v).1) ∧
    (∀ (c : Config) (v : Nat), c.flags_le (CliConfigSetter.fn_call_width c v).1) ∧
    (∀ (c : Config) (v : Nat), c.flags_le (CliConfigSetter.attr_fn_like_width c v).1) ∧
    (∀ (c : Config) (v : Nat), c.flags_le (CliConfigSetter.struct_lit_width c v).1) ∧
    (∀ (c : Config) (v : Nat), c.flags_le (CliConfigSetter.struct_variant_width c v).1) ∧
    (∀ (c : Config) (v : Nat), c.flags_le (CliConfigSetter.array_width c v).1) ∧
    (∀ (c : Config) (v : Nat), c.flags_le (CliConfigSetter.chain_width c v).1) ∧
    (∀ (c : Config) (v : Nat), c.flags_le (CliConfigSetter.single_line_if_else_max_width c v).1) ∧
    (∀ (c : Config) (v : Nat), c.flags_le (CliConfigSetter.single_line_let_else_max_width c v).1) ∧
    (∀ (c : Config) (v : Bool), c.flags_le (CliConfigSetter.merge_imports c v).1) ∧
    (∀ (c : Config) (v : ImportGranularity), c.flags_le (CliConfigSetter.imports_granularity c v).1) ∧
    (∀ (c : Config) (v : Density), c.flags_le (CliConfigSetter.fn_args_layout c v).1) ∧
    (∀ (c : Config) (v : Density), c.flags_le (CliConfigSetter.fn_params_layout c v).1) ∧
    (∀ (c : Config) (v : Bool), c.flags_le (CliConfigSetter.hide_parse_errors c v).1) ∧
    (∀ (c : Config) (v : Bool), c.flags_le (CliConfigSetter.show_parse_errors c v).1) ∧
    (∀ (c : Config) (v : Version), c.flags_le (CliConfigSetter.version c v).1) ∧
    (∀ (c : Config) (v : StyleEdition), c.flags_le (CliConfigSetter.style_edition c v).1) ∧
    (∀ (c : Config) (v : IgnoreList), c.flags_le (CliConfigSetter.ignore c v).1) ∧
    (∀ (c : Config) (key val : String),
      match c.override_value key val with
      | .ok p => c.flags_le p.1
      | .error _ => True) ∧
    (∀ (c : Config) (h : WidthHeuristics), c.flags_le (c.set_width_heuristics h).1) ∧
    (∀ (c : Config), c.flags_le (c.set_heuristics).1) ∧
    (∀ (c : Config) (dir : String), c.flags_le (c.set_ignore dir)) ∧
    (∀ (c : Config), c.flags_le (c.set_merge_imports).1) ∧
    (∀ (c : Config), c.flags_le (c.set_fn_args_layout).1) ∧
    (∀ (c : Config), c.flags_le (c.set_hide_parse_errors).1) ∧
    (∀ (c : Config), c.flags_le (c.set_version).1) := by
  refine ⟨?_, ?_, ?_, ?_, ?_, ?_, ?_, ?_, ?_, ?_, ?_, ?_, ?_, ?_, ?_, ?_, ?_, ?_, ?_, ?_, ?_, ?_, ?_, ?_, ?_, ?_, ?_, ?_, ?_, ?_, ?_, ?_, ?_, ?_, ?_, ?_, ?_, ?_, ?_, ?_, ?_, ?_, ?_, ?_, ?_, ?_, ?_⟩
  · exact mono_fill
  · intro c v
    simp only [ConfigSetter.max_width]
    exact flags_le_trans _ _ _ (by simp [Config.flags_le, slot_flags_le])
      (mono_set_heuristics _)
  · intro c v
    simp only [ConfigSetter.use_small_heuristics]
    exact flags_le_trans _ _ _ (by simp [Config.flags_le, slot_flags_le])
      (mono_set_heuristics _)
  · intro c v
    simp only [ConfigSetter.fn_call_width]
    exact flags_le_trans _ _ _ (by simp [Config.flags_le, slot_flags_le])
      (mono_set_heuristics _)
  · intro c v
    simp only [ConfigSetter.attr_fn_like_width]
    exact flags_le_trans _ _ _ (by simp [Config.flags_le, slot_flags_le])
      (mono_set_heuristics _)
  · intro c v
    simp only [ConfigSetter.struct_lit_width]
    exact flags_le_trans _ _ _ (by simp [Config.flags_le, slot_flags_le])
      (mono_set_heuristics _)
  · intro c v
    simp only [ConfigSetter.struct_variant_width]
    exact flags_le_trans _ _ _ (by simp [Config.flags_le, slot_flags_le])
      (mono_set_heuristics _)
  · intro c v
    simp only [ConfigSetter.array_width]
    exact flags_le_trans _ _ _ (by simp [Config.flags_le, slot_flags_le])
      (mono_set_heuristics _)
  · intro c v
    simp only [ConfigSetter.chain_width]
    exact flags_le_trans _ _ _ (by simp [Config.flags_le, slot_flags_le])
      (mono_set_heuristics _)
  · intro c v
    simp only [ConfigSetter.single_line_if_else_max_width]
    exact flags_le_trans _ _ _ (by simp [Config.flags_le, slot_flags_le])
      (mono_set_heuristics _)
  · intro c v
    simp only [ConfigSetter.single_line_let_else_max_width]
    exact flags_le_trans _ _ _ (by simp [Config.flags_le, slot_flags_le])
      (mono_set_heuristics _)
  · intro c v
    simp only [ConfigSetter.merge_imports]
    exact flags_le_trans _ _ _ (by simp [Config.flags_le, slot_flags_le])
      (mono_set_merge_imports _)
  · intro c v; simp [ConfigSetter.imports_granularity, Config.flags_le, slot_flags_le]
  · intro c v
    simp only [ConfigSetter.fn_args_layout]
    exact flags_le_trans _ _ _ (by simp [Config.flags_le, slot_flags_le])
      (mono_set_fn_args_layout _)
  · intro c v; simp [ConfigSetter.fn_params_layout, Config.flags_le, slot_flags_le]
  · intro c v
    simp only [ConfigSetter.hide_parse_errors]
    exact flags_le_trans _ _ _ (by simp [Config.flags_le, slot_flags_le])
      (mono_set_hide_parse_errors _)
  · intro c v; simp [ConfigSetter.show_parse_errors, Config.flags_le, slot_flags_le]
  · intro c v
    simp only [ConfigSetter.version]
    exact flags_le_trans _ _ _ (by simp [Config.flags_le, slot_flags_le])
      (mono_set_version _)
  · intro c v; simp [ConfigSetter.style_edition, Config.flags_le, slot_flags_le]
  · intro c v; simp [ConfigSetter.ignore, Config.flags_le, slot_flags_le]
  · intro c v
    simp only [CliConfigSetter.max_width]
    exact flags_le_trans _ _ _ (by simp [Config.flags_le, slot_flags_le])
      (mono_set_heuristics _)
  · intro c v
    simp only [CliConfigSetter.use_small_heuristics]
    exact flags_le_trans _ _ _ (by simp [Config.flags_le, slot_flags_le])
      (mono_set_heuristics _)
  · intro c v
    simp only [CliConfigSetter.fn_call_width]
    exact flags_le_trans _ _ _ (by simp [Config.flags_le, slot_flags_le])
      (mono_set_heuristics _)
  · intro c v
    simp only [CliConfigSetter.attr_fn_like_width]
    exact flags_le_trans _ _ _ (by simp [Config.flags_le, slot_flags_le])
      (mono_set_heuristics _)
  · intro c v
    simp only [CliConfigSetter.struct_lit_width]
    exact flags_le_trans _ _ _ (by simp [Config.flags_le, slot_flags_le])
      (mono_set_heuristics _)
  · intro c v
    simp only [CliConfigSetter.struct_variant_width]
    exact flags_le_trans _ _ _ (by simp [Config.flags_le, slot_flags_le])
      (mono_set_heuristics _)
  · intro c v
    simp only [CliConfigSetter.array_width]
    exact flags_le_trans _ _ _ (by simp [Config.flags_le, slot_flags_le])
      (mono_set_heuristics _)
  · intro c v
    simp only [CliConfigSetter.chain_width]
    exact flags_le_trans _ _ _ (by simp [Config.flags_le, slot_flags_le])
      (mono_set_heuristics _)
  · intro c v
    simp only [CliConfigSetter.single_line_if_else_max_width]
    exact flags_le_trans _ _ _ (by simp [Config.flags_le, slot_flags_le])
      (mono_set_heuristics _)
  · intro c v
    simp only [CliConfigSetter.single_line_let_else_max_width]
    exact flags_le_trans _ _ _ (by simp [Config.flags_le, slot_flags_le])
      (mono_set_heuristics _)
  · intro c v
    simp only [CliConfigSetter.merge_imports]
    exact flags_le_trans _ _ _ (by simp [Config.flags_le, slot_flags_le])
      (mono_set_merge_imports _)
  · intro c v; simp [CliConfigSetter.imports_granularity, Config.flags_le, slot_flags_le]
  · intro c v
    simp only [CliConfigSetter.fn_args_layout]
    exact flags_le_trans _ _ _ (by simp [Config.flags_le, slot_flags_le])
      (mono_set_fn_args_layout _)
  · intro c v; simp [CliConfigSetter.fn_params_layout, Config.flags_le, slot_flags_le]
  · intro c v
    simp only [CliConfigSetter.hide_parse_errors]
    exact flags_le_trans _ _ _ (by simp [Config.flags_le, slot_flags_le])
      (mono_set_hide_parse_errors _)
  · intro c v; simp [CliConfigSetter.show_parse_errors, Config.flags_le, slot_flags_le]
  · intro c v
    simp only [CliConfigSetter.version]
    exact flags_le_trans _ _ _ (by simp [Config.flags_le, slot_flags_le])
      (mono_set_version _)
  · intro c v; simp [CliConfigSetter.style_edition, Config.flags_le, slot_flags_le]
  · intro c v; simp [CliConfigSetter.ignore, Config.flags_le, slot_flags_le]
  · exact mono_override_value
  · exact mono_set_width_heuristics
  · exact mono_set_heuristics
  · exact mono_set_ignore
  · exact mono_set_merge_imports
  · exact mono_set_fn_args_layout
  · exact mono_set_hide_parse_errors
  · exact mono_set_version

end RustfmtConfig
